import Mathlib

/-!
Shallow embedding of the crawler / metrics core of the GEN-AI-UI-Heuristics
repository (src/GEN-AI-Heuristics/main.py and metrics_tracker.py), together
with theorems settling the frozen claims about it.

Conventions of the embedding:
* Python floats are modelled by the exact rational values of binary64
  doubles: `fl` rounds a rational to the nearest double (ties to even; the
  normal range suffices for every value in this development), every float
  operation on the cost path rounds its exact result through `fl`, and
  Python `round(x, 4)` is `pyRound4`: correctly-rounded decimal
  half-to-even on the exact value, re-rounded to the nearest double.
  Timestamps in `TimeMetrics` stay exact rationals; the time claims'
  concrete cases are exactly representable and independent of rounding.
* Python `datetime` timestamps are modelled as rational POSIX seconds;
  `datetime` objects are always truthy, so `if self.start_time and
  self.end_time` is the test that both `Option` values are `some`.
* Python dicts with insertion order are association lists; `dict.get` with a
  default is `List.lookup` with `getD`.
* The browser / network (playwright), `urlparse` and BeautifulSoup are
  external collaborators: they enter the model as an environment record
  (`CrawlEnv`, `AuthEnv`) giving, per URL, the navigation outcome, the
  extracted (cleaned) content, and the href list of the rendered page.  The
  crawler navigates each URL at most once, so a deterministic per-URL
  environment is faithful.
* All call sites in main.py pass a `MetricsTracker`, so the `if metrics:`
  guards are modelled as always taken.
-/

namespace GenAI

/-! ## metrics_tracker.py -/

/-- Python round-half-to-even of a rational to an integer, as in
`round(x)` applied to the exact value. -/
def roundHalfEven (x : ℚ) : ℤ :=
  let f := ⌊x⌋
  if x - f < 1/2 then f
  else if (1:ℚ)/2 < x - f then f + 1
  else if f % 2 = 0 then f else f + 1

/-- Round a rational to the exact value of the nearest binary64 double
(round to nearest, ties to even).  Subnormals and overflow are not modelled:
every value in this development lies well inside the normal range. -/
def fl (x : ℚ) : ℚ :=
  if x = 0 then 0
  else
    let a := |x|
    let e := Int.log 2 a
    let m := roundHalfEven (a * 2 ^ ((52 : ℤ) - e))
    (if x < 0 then -1 else 1) * (m : ℚ) * 2 ^ (e - 52)

/-- Python `round(x, 4)` on a float: CPython rounds the exact binary value
of `x` to 4 decimal places half-to-even, then returns the nearest double to
that decimal. -/
def pyRound4 (x : ℚ) : ℚ :=
  fl ((roundHalfEven (x * 10000) : ℚ) / 10000)

/-- `MODEL_PRICING` table from metrics_tracker.py (per 1K tokens); the
`description` field is dropped as irrelevant to the claims.  The decimal
literals parse to the nearest binary64 doubles, hence the `fl`. -/
def MODEL_PRICING : List (String × ℚ × ℚ) :=
  [("gpt-4o", fl (5/1000), fl (15/1000)),
   ("gpt-4o-mini", fl (15/100000), fl (6/10000))]

/-- `MODEL_PRICING.get(model, MODEL_PRICING["gpt-4o-mini"])`. -/
def pricingFor (model : String) : ℚ × ℚ :=
  (MODEL_PRICING.lookup model).getD ((MODEL_PRICING.lookup "gpt-4o-mini").getD (0, 0))

/-- Dataclass `CrawlMetrics`. -/
structure CrawlMetrics where
  pages_requested : ℕ
  pages_crawled : ℕ
  pages_skipped : ℕ
  skip_reasons : List (String × List String)
  crawled_urls : List String
deriving DecidableEq, Repr

/-- Dataclass `TokenMetrics`. -/
structure TokenMetrics where
  total_input_tokens : ℕ
  total_output_tokens : ℕ
  api_calls : ℕ
deriving DecidableEq, Repr

/-- Property `TokenMetrics.total_tokens`. -/
def TokenMetrics.total_tokens (t : TokenMetrics) : ℕ :=
  t.total_input_tokens + t.total_output_tokens

/-- `TokenMetrics.calculate_cost`: per-1K-token pricing of the selected
model, falling back to gpt-4o-mini for unknown models.  Every binary64
operation (the int/1000 true division, each multiplication, the final
addition) rounds its exact result to the nearest double. -/
def TokenMetrics.calculate_cost (t : TokenMetrics) (model : String) : ℚ :=
  let pricing := pricingFor model
  let input_cost := fl (fl ((t.total_input_tokens : ℚ) / 1000) * pricing.1)
  let output_cost := fl (fl ((t.total_output_tokens : ℚ) / 1000) * pricing.2)
  fl (input_cost + output_cost)

/-- Dataclass `TimeMetrics`; timestamps are rational POSIX seconds. -/
structure TimeMetrics where
  start_time : Option ℚ
  end_time : Option ℚ
deriving DecidableEq, Repr

/-- Property `TimeMetrics.elapsed_seconds` (datetime objects are always
truthy, so the Python `and` tests that both are set). -/
def TimeMetrics.elapsed_seconds (t : TimeMetrics) : ℚ :=
  match t.start_time, t.end_time with
  | some s, some e => e - s
  | _, _ => 0

/-- Python `int()` truncation of a rational toward zero. -/
def pyInt (q : ℚ) : ℤ :=
  if 0 ≤ q then ⌊q⌋ else ⌈q⌉

/-- Python `f"{n:02d}"`: zero-pad to width 2 (the sign counts toward the
width). -/
def formatInt02 (n : ℤ) : String :=
  if n < 0 then "-" ++ toString (-n)
  else if n < 10 then "0" ++ toString n
  else toString n

/-- `TimeMetrics.format_elapsed`: `divmod` in Python is floor
division / floor modulus, i.e. `Int.fdiv` / `Int.fmod`. -/
def TimeMetrics.format_elapsed (t : TimeMetrics) : String :=
  let seconds := pyInt t.elapsed_seconds
  let hours := Int.fdiv seconds 3600
  let remainder := Int.fmod seconds 3600
  let minutes := Int.fdiv remainder 60
  let secs := Int.fmod remainder 60
  formatInt02 hours ++ ":" ++ formatInt02 minutes ++ ":" ++ formatInt02 secs

/-- Class `MetricsTracker`. -/
structure MetricsTracker where
  crawl : CrawlMetrics
  tokens : TokenMetrics
  time : TimeMetrics
  model : String
deriving DecidableEq, Repr

/-- `MetricsTracker.__init__`. -/
def MetricsTracker.init (model : String) : MetricsTracker :=
  ⟨⟨0, 0, 0, [], []⟩, ⟨0, 0, 0⟩, ⟨none, none⟩, model⟩

/-- `self.crawl.skip_reasons[reason].append(url)` with the bucket created on
first use; Python dicts keep insertion order, new keys go last. -/
def addToBucket : List (String × List String) → String → String → List (String × List String)
  | [], reason, url => [(reason, [url])]
  | (r, us) :: rest, reason, url =>
    if r = reason then (r, us ++ [url]) :: rest
    else (r, us) :: addToBucket rest reason url

/-- `MetricsTracker.record_page_crawled`. -/
def MetricsTracker.record_page_crawled (m : MetricsTracker) (url : String) : MetricsTracker :=
  { m with crawl := { m.crawl with
      pages_crawled := m.crawl.pages_crawled + 1,
      crawled_urls := m.crawl.crawled_urls ++ [url] } }

/-- `MetricsTracker.record_page_skipped`. -/
def MetricsTracker.record_page_skipped (m : MetricsTracker) (url reason : String) : MetricsTracker :=
  { m with crawl := { m.crawl with
      pages_skipped := m.crawl.pages_skipped + 1,
      skip_reasons := addToBucket m.crawl.skip_reasons reason url } }

/-- `MetricsTracker.record_api_call`. -/
def MetricsTracker.record_api_call (m : MetricsTracker) (input_tokens output_tokens : ℕ) :
    MetricsTracker :=
  { m with tokens := ⟨m.tokens.total_input_tokens + input_tokens,
      m.tokens.total_output_tokens + output_tokens, m.tokens.api_calls + 1⟩ }

/-- The dict returned by `MetricsTracker.get_summary`. -/
structure Summary where
  elapsed_time : String
  elapsed_seconds : ℚ
  pages_requested : ℕ
  pages_crawled : ℕ
  pages_skipped : ℕ
  skip_reasons : List (String × List String)
  total_input_tokens : ℕ
  total_output_tokens : ℕ
  total_tokens : ℕ
  api_calls : ℕ
  estimated_cost_usd : ℚ
  cost_per_page : ℚ
  model_used : String
deriving DecidableEq, Repr

/-- `MetricsTracker.get_summary`. -/
def MetricsTracker.get_summary (m : MetricsTracker) : Summary :=
  let cost := m.tokens.calculate_cost m.model
  let pages : ℕ := if 0 < m.crawl.pages_crawled then m.crawl.pages_crawled else 1
  { elapsed_time := m.time.format_elapsed
    elapsed_seconds := m.time.elapsed_seconds
    pages_requested := m.crawl.pages_requested
    pages_crawled := m.crawl.pages_crawled
    pages_skipped := m.crawl.pages_skipped
    skip_reasons := m.crawl.skip_reasons
    total_input_tokens := m.tokens.total_input_tokens
    total_output_tokens := m.tokens.total_output_tokens
    total_tokens := m.tokens.total_tokens
    api_calls := m.tokens.api_calls
    estimated_cost_usd := pyRound4 cost
    cost_per_page := pyRound4 (fl (cost / (pages : ℚ)))
    model_used := m.model }

/-- Cost formula as the spec words it: `round((inputTokens/1000)*priceIn +
(outputTokens/1000)*priceOut, 4)` for a given pricing row, evaluated under
the program's binary64 semantics.  Written from the spec sentence, to be
compared with the source-derived `get_summary`. -/
def spec_estimated_cost (inputTokens outputTokens : ℕ) (priceIn priceOut : ℚ) : ℚ :=
  pyRound4 (fl (fl (fl ((inputTokens : ℚ) / 1000) * priceIn) +
    fl (fl ((outputTokens : ℚ) / 1000) * priceOut)))

/-! ## main.py — the crawler

`login_and_crawl_all_pages` and `crawl_all_pages_no_login` share the inner
`crawl` closure verbatim; it is embedded once.  The browser is an
environment: per URL it tells whether `page.goto` succeeds, whether
`page.content()` + `clean_html_content` succeeds and with what cleaned text,
and which hrefs `eval_on_selector_all("a[href]")` returns.  `urlparse(u).netloc`
is the environment's `netloc` function. -/

/-- What the browser environment yields for one URL. -/
structure PageResult where
  navOk : Bool
  navErr : String
  contentOk : Bool
  content : String
  contentErr : String
  linksOk : Bool
  links : List String
deriving DecidableEq, Repr

/-- Crawl-session environment: external collaborators plus the session
parameters captured by the `crawl` closure. -/
structure CrawlEnv where
  netloc : String → String
  page : String → PageResult
  baseDomain : String
  maxPages : ℕ
  maxDepth : ℕ

/-- `PageOutcome`: the decision recorded for one `crawl` invocation. -/
inductive Outcome where
  | crawled
  | skipped (reason : String)
deriving DecidableEq, Repr

/-- Ghost trace entry: one per per-URL decision, appended exactly where the
source calls `record_page_crawled` / `record_page_skipped`. -/
structure Event where
  url : String
  outcome : Outcome
deriving DecidableEq, Repr

/-- The mutable closure state of a crawl session: `visited_urls` (a Python
set, represented as its insertion list), `url_to_content` (insertion-ordered
dict), the metrics tracker, and the ghost decision trace. -/
structure CrawlState where
  visited : List String
  content : List (String × String)
  metrics : MetricsTracker
  events : List Event
deriving DecidableEq, Repr

/-- One skip decision: `metrics.record_page_skipped(url, reason)` plus its
ghost event. -/
def CrawlState.recordSkipped (st : CrawlState) (url reason : String) : CrawlState :=
  { st with metrics := st.metrics.record_page_skipped url reason,
            events := st.events ++ [⟨url, .skipped reason⟩] }

/-- One crawl decision: `metrics.record_page_crawled(url)` plus its ghost
event. -/
def CrawlState.recordCrawled (st : CrawlState) (url : String) : CrawlState :=
  { st with metrics := st.metrics.record_page_crawled url,
            events := st.events ++ [⟨url, .crawled⟩] }

/-- The link filter of the discovery loop:
`link_domain == base_domain and not link.startswith(("mailto:", "javascript:"))`. -/
def linkEligible (env : CrawlEnv) (link : String) : Bool :=
  env.netloc link == env.baseDomain &&
    !(link.startsWith "mailto:" || link.startsWith "javascript:")

/-- The `for link in links:` discovery loop of `crawl`: before each link the
budget is re-checked and the loop `break`s when it is exhausted; eligible
links are crawled at depth + 1 (`f` is the recursive call with its depth
already fixed). -/
def crawlLinks (env : CrawlEnv) (f : String → CrawlState → CrawlState) :
    List String → CrawlState → CrawlState
  | [], st => st
  | link :: rest, st =>
    if env.maxPages ≤ st.content.length then st
    else
      let st' := if linkEligible env link then f link st else st
      crawlLinks env f rest st'

/-- The body of `crawl` after the four policy checks: mark visited, navigate,
extract content, store it, and (budget permitting) discover links.  `recur`
is the recursive call at depth + 1. -/
def crawlNav (env : CrawlEnv) (recur : String → CrawlState → CrawlState)
    (url : String) (st : CrawlState) : CrawlState :=
  let st1 := { st with visited := st.visited ++ [url] }
  let pr := env.page url
  if pr.navOk = false then
    st1.recordSkipped url ("navigation_error: " ++ pr.navErr.take 50)
  else if pr.contentOk = false then
    st1.recordSkipped url ("content_error: " ++ pr.contentErr.take 50)
  else
    let st2 := CrawlState.recordCrawled
      { st1 with content := st1.content ++ [(url, pr.content)] } url
    if st2.content.length < env.maxPages then
      if pr.linksOk then crawlLinks env recur pr.links st2 else st2
    else st2

/-- The inner async `crawl(current_url, depth)` closure.  The four policy
checks run in source order (budget, duplicate, depth, domain), each recording
its skip and returning; only then is navigation attempted.  Recursion is by
fuel; the depth check bounds the call chain, so fuel `maxDepth + 2` at depth
0 (as used by the top-level entry points) never runs out. -/
def crawl (env : CrawlEnv) : ℕ → String → ℕ → CrawlState → CrawlState
  | 0, _, _, st => st
  | fuel + 1, url, depth, st =>
    if env.maxPages ≤ st.content.length then
      st.recordSkipped url "max_limit_reached"
    else if url ∈ st.visited then
      st.recordSkipped url "duplicate"
    else if env.maxDepth < depth then
      st.recordSkipped url "max_depth_exceeded"
    else if env.netloc url ≠ env.baseDomain then
      st.recordSkipped url "domain_mismatch"
    else
      crawlNav env (fun l s => crawl env fuel l (depth + 1) s) url st

/-- The `for prescriptive_url in prescriptive_urls:` loop: budget checked
before each seed, `break` on exhaustion, each seed crawled at depth 0. -/
def crawlSeeds (env : CrawlEnv) (fuel : ℕ) : List String → CrawlState → CrawlState
  | [], st => st
  | u :: rest, st =>
    if env.maxPages ≤ st.content.length then st
    else crawlSeeds env fuel rest (crawl env fuel u 0 st)

/-- The shared tail of both crawl entry points: the prescriptive-URL loop
followed, budget permitting, by a crawl of the main URL at depth 0. -/
def crawlTop (env : CrawlEnv) (fuel : ℕ) (seeds : List String) (main : String)
    (st0 : CrawlState) : CrawlState :=
  let st1 := crawlSeeds env fuel seeds st0
  if st1.content.length < env.maxPages then crawl env fuel main 0 st1 else st1

/-- `crawl_all_pages_no_login`: seeds first, then the start URL if the budget
allows.  `max_depth = 2` is set inside the function; the base domain is the
netloc of the start URL.  Returns the whole final session state (the source
returns `url_to_content` and mutates `metrics` in place). -/
def crawl_all_pages_no_login (netloc : String → String) (page : String → PageResult)
    (start_url : String) (additional_urls : List String) (max_pages : ℕ)
    (m0 : MetricsTracker) : CrawlState :=
  let env : CrawlEnv :=
    { netloc := netloc, page := page, baseDomain := netloc start_url,
      maxPages := max_pages, maxDepth := 2 }
  crawlTop env (env.maxDepth + 2) additional_urls start_url ⟨[], [], m0, []⟩

/-- Environment for `navigate_authenticated_site`: whether the login steps
throw, the post-login URL otherwise, the text of the first matching
error-indicator element (when still on the login page), and the outcome of
the optional hop to the requested start URL. -/
structure AuthEnv where
  authThrows : Bool
  authErr : String
  postLoginUrl : String
  loginErrorText : Option String
  startNavOk : Bool
  startNavErr : String
deriving DecidableEq, Repr

/-- Result of `navigate_authenticated_site`: `(success, landing_page_url)`
plus the updated tracker and the ghost events of its skip records. -/
structure AuthResult where
  success : Bool
  landing : String
  metrics : MetricsTracker
  events : List Event
deriving DecidableEq, Repr

/-- `navigate_authenticated_site`.  An exception anywhere in the outer try is
`auth_error`; still being on the login page is `login_failed` (with the
error-element text when one matches, else `login_failed_no_redirect`); a
failed hop to a distinct start URL falls back to the post-login landing page
and records `navigation_error` against the start URL. -/
def navigate_authenticated_site (aenv : AuthEnv) (login_url start_url : String)
    (m : MetricsTracker) : AuthResult :=
  if aenv.authThrows then
    let reason := "auth_error: " ++ aenv.authErr.take 50
    ⟨false, login_url, m.record_page_skipped login_url reason,
      [⟨login_url, .skipped reason⟩]⟩
  else if aenv.postLoginUrl = login_url then
    match aenv.loginErrorText with
    | some t =>
      let reason := "login_failed: " ++ t.take 50
      ⟨false, login_url, m.record_page_skipped login_url reason,
        [⟨login_url, .skipped reason⟩]⟩
    | none =>
      ⟨false, login_url, m.record_page_skipped login_url "login_failed_no_redirect",
        [⟨login_url, .skipped "login_failed_no_redirect"⟩]⟩
  else if start_url ≠ "" ∧ start_url ≠ login_url ∧ start_url ≠ aenv.postLoginUrl then
    if aenv.startNavOk then ⟨true, start_url, m, []⟩
    else
      let reason := "navigation_error: " ++ aenv.startNavErr.take 50
      ⟨true, aenv.postLoginUrl, m.record_page_skipped start_url reason,
        [⟨start_url, .skipped reason⟩]⟩
  else ⟨true, aenv.postLoginUrl, m, []⟩

/-- `login_and_crawl_all_pages`: authenticate; on failure abort with an empty
content map; otherwise crawl the prescriptive URLs (defaulting to the landing
page when none are given and it differs from the login URL) and then the
`url` argument, under base domain `netloc(login_url)` and `max_depth = 2`. -/
def login_and_crawl_all_pages (netloc : String → String) (page : String → PageResult)
    (aenv : AuthEnv) (url login_url : String) (additional_urls : List String)
    (max_pages : ℕ) (m0 : MetricsTracker) : CrawlState :=
  let ar := navigate_authenticated_site aenv login_url url m0
  if ar.success = false then ⟨[], [], ar.metrics, ar.events⟩
  else
    let env : CrawlEnv :=
      { netloc := netloc, page := page, baseDomain := netloc login_url,
        maxPages := max_pages, maxDepth := 2 }
    let prescriptive_urls :=
      if additional_urls ≠ [] then additional_urls
      else if ar.landing ≠ login_url then [ar.landing] else []
    crawlTop env (env.maxDepth + 2) prescriptive_urls url ⟨[], [], ar.metrics, ar.events⟩

/-- The spec's closed `SkipReason` enumeration. -/
def skipReasonEnum : List String :=
  ["duplicate", "domain_mismatch", "max_limit_reached", "max_depth_exceeded",
   "navigation_error", "content_error", "login_failed", "auth_error"]

/-- Total length of all skip buckets. -/
def sumBuckets (b : List (String × List String)) : ℕ :=
  (b.map (fun p => p.2.length)).sum

/-- Dict access `skip_reasons.get(reason, [])`. -/
def bucketGet (b : List (String × List String)) (reason : String) : List String :=
  (b.lookup reason).getD []

/-! ## Helper lemmas for the time / cost claims -/

lemma pyInt_of_nonneg {q : ℚ} (h : 0 ≤ q) : pyInt q = ⌊q⌋ := if_pos h

lemma fdiv_coe (n k : ℕ) : Int.fdiv (n : ℤ) (k : ℤ) = ((n / k : ℕ) : ℤ) := by
  cases n with
  | zero => show Int.fdiv 0 (k : ℤ) = _ ; rw [Int.zero_fdiv] ; simp
  | succ m => rfl

lemma fmod_coe (n k : ℕ) : Int.fmod (n : ℤ) (k : ℤ) = ((n % k : ℕ) : ℤ) := by
  cases n with
  | zero => simp [Int.fmod]
  | succ m => rfl

lemma fdiv_coe_3600 (n : ℕ) : Int.fdiv (n : ℤ) 3600 = ((n / 3600 : ℕ) : ℤ) := fdiv_coe n 3600

lemma fmod_coe_3600 (n : ℕ) : Int.fmod (n : ℤ) 3600 = ((n % 3600 : ℕ) : ℤ) := fmod_coe n 3600

lemma fdiv_coe_60 (n : ℕ) : Int.fdiv (n : ℤ) 60 = ((n / 60 : ℕ) : ℤ) := fdiv_coe n 60

lemma fmod_coe_60 (n : ℕ) : Int.fmod (n : ℤ) 60 = ((n % 60 : ℕ) : ℤ) := fmod_coe n 60

lemma formatInt02_len_two : ∀ k : ℕ, k < 60 → ((formatInt02 (k : ℤ)).length = 2) := by decide

lemma format_elapsed_eq (t : TimeMetrics) (n : ℕ)
    (hn : pyInt t.elapsed_seconds = (n : ℤ)) :
    t.format_elapsed = formatInt02 ((n / 3600 : ℕ) : ℤ) ++ ":" ++
      formatInt02 ((n % 3600 / 60 : ℕ) : ℤ) ++ ":" ++ formatInt02 ((n % 3600 % 60 : ℕ) : ℤ) := by
  simp only [TimeMetrics.format_elapsed, hn, fdiv_coe_3600, fmod_coe_3600, fdiv_coe_60,
    fmod_coe_60]

lemma format_elapsed_conc (a : ℚ) (n : ℕ) (ha : a - 0 = (n : ℚ)) :
    TimeMetrics.format_elapsed ⟨some 0, some a⟩ = formatInt02 ((n / 3600 : ℕ) : ℤ) ++ ":" ++
      formatInt02 ((n % 3600 / 60 : ℕ) : ℤ) ++ ":" ++ formatInt02 ((n % 3600 % 60 : ℕ) : ℤ) := by
  refine format_elapsed_eq _ n ?_
  show pyInt (a - 0) = _
  rw [ha, pyInt_of_nonneg (by positivity), Int.floor_natCast]

/-! ## Claims C7, C9, C10 -/

lemma fl_eval_pos (x : ℚ) (e n : ℤ) (h1 : 0 < x) (h2 : (2:ℚ) ^ e ≤ x)
    (h3 : x < (2:ℚ) ^ (e + 1))
    (h4 : roundHalfEven (x * 2 ^ ((52 : ℤ) - e)) = n) :
    fl x = (n : ℚ) * 2 ^ (e - 52) := by
  have hlog : Int.log 2 x = e := by
    have hle : e ≤ Int.log 2 x :=
      (Int.zpow_le_iff_le_log (by norm_num) h1).mp (by exact_mod_cast h2)
    have hlt : Int.log 2 x < e + 1 :=
      (Int.lt_zpow_iff_log_lt (by norm_num) h1).mp (by exact_mod_cast h3)
    omega
  simp only [fl, if_neg (ne_of_gt h1), abs_of_pos h1, hlog, h4,
    if_neg (not_lt.mpr h1.le), one_mul]

lemma roundHalfEven_eq_floor {q : ℚ} {f : ℤ} (hf : ⌊q⌋ = f) (h : q - f < 1/2) :
    roundHalfEven q = f := by
  simp only [roundHalfEven, hf]
  rw [if_pos h]

lemma roundHalfEven_eq_floor_add_one {q : ℚ} {f : ℤ} (hf : ⌊q⌋ = f) (h : 1/2 < q - f) :
    roundHalfEven q = f + 1 := by
  simp only [roundHalfEven, hf]
  rw [if_neg (by linarith), if_pos h]

lemma fl_one : fl 1 = 1 := by
  have h4 : roundHalfEven ((1 : ℚ) * 2 ^ ((52 : ℤ) - 0)) = 4503599627370496 := by
    refine roundHalfEven_eq_floor ?_ ?_
    · rw [Int.floor_eq_iff] ; norm_num
    · norm_num
  refine (fl_eval_pos 1 0 4503599627370496 (by norm_num) (by norm_num) (by norm_num)
    h4).trans ?_
  norm_num

lemma fl_1000div : fl (((1000 : ℕ) : ℚ) / 1000) = 1 := by
  rw [show ((1000 : ℕ) : ℚ) / 1000 = 1 from by norm_num]
  exact fl_one

lemma fl_15e5 : fl (15/100000) = 5534023222112865 / 36893488147419103232 := by
  have h4 : roundHalfEven ((15/100000 : ℚ) * 2 ^ ((52 : ℤ) - (-13))) = 5534023222112865 := by
    refine roundHalfEven_eq_floor ?_ ?_
    · rw [Int.floor_eq_iff] ; norm_num
    · norm_num
  refine (fl_eval_pos (15/100000) (-13) 5534023222112865 (by norm_num) (by norm_num)
    (by norm_num) h4).trans ?_
  norm_num

lemma fl_6e4 : fl (6/10000) = 5534023222112865 / 9223372036854775808 := by
  have h4 : roundHalfEven ((6/10000 : ℚ) * 2 ^ ((52 : ℤ) - (-11))) = 5534023222112865 := by
    refine roundHalfEven_eq_floor ?_ ?_
    · rw [Int.floor_eq_iff] ; norm_num
    · norm_num
  refine (fl_eval_pos (6/10000) (-11) 5534023222112865 (by norm_num) (by norm_num)
    (by norm_num) h4).trans ?_
  norm_num

lemma fl_d1_fix : fl (5534023222112865 / 36893488147419103232) =
    5534023222112865 / 36893488147419103232 := by
  have h4 : roundHalfEven ((5534023222112865 / 36893488147419103232 : ℚ) *
      2 ^ ((52 : ℤ) - (-13))) = 5534023222112865 := by
    refine roundHalfEven_eq_floor ?_ ?_
    · rw [Int.floor_eq_iff] ; norm_num
    · norm_num
  refine (fl_eval_pos (5534023222112865 / 36893488147419103232) (-13) 5534023222112865
    (by norm_num) (by norm_num) (by norm_num) h4).trans ?_
  norm_num

lemma fl_d2_fix : fl (5534023222112865 / 9223372036854775808) =
    5534023222112865 / 9223372036854775808 := by
  have h4 : roundHalfEven ((5534023222112865 / 9223372036854775808 : ℚ) *
      2 ^ ((52 : ℤ) - (-11))) = 5534023222112865 := by
    refine roundHalfEven_eq_floor ?_ ?_
    · rw [Int.floor_eq_iff] ; norm_num
    · norm_num
  refine (fl_eval_pos (5534023222112865 / 9223372036854775808) (-11) 5534023222112865
    (by norm_num) (by norm_num) (by norm_num) h4).trans ?_
  norm_num

lemma fl_sum : fl (27670116110564325 / 36893488147419103232) =
    6917529027641081 / 9223372036854775808 := by
  have h4 : roundHalfEven ((27670116110564325 / 36893488147419103232 : ℚ) *
      2 ^ ((52 : ℤ) - (-11))) = 6917529027641081 := by
    refine roundHalfEven_eq_floor ?_ ?_
    · rw [Int.floor_eq_iff] ; norm_num
    · norm_num
  refine (fl_eval_pos (27670116110564325 / 36893488147419103232) (-11) 6917529027641081
    (by norm_num) (by norm_num) (by norm_num) h4).trans ?_
  norm_num

lemma fl_7 : fl (7/10000) = 6456360425798343 / 9223372036854775808 := by
  have h4 : roundHalfEven ((7/10000 : ℚ) * 2 ^ ((52 : ℤ) - (-11))) = 6456360425798343 := by
    refine roundHalfEven_eq_floor ?_ ?_
    · rw [Int.floor_eq_iff] ; norm_num
    · norm_num
  refine (fl_eval_pos (7/10000) (-11) 6456360425798343 (by norm_num) (by norm_num)
    (by norm_num) h4).trans ?_
  norm_num

lemma fl_8 : fl (8/10000) = 7378697629483821 / 9223372036854775808 := by
  have h4 : roundHalfEven ((8/10000 : ℚ) * 2 ^ ((52 : ℤ) - (-11))) = 7378697629483821 := by
    have hf : ⌊(8/10000 : ℚ) * 2 ^ ((52 : ℤ) - (-11))⌋ = 7378697629483820 := by
      rw [Int.floor_eq_iff] ; norm_num
    have hfr : (1:ℚ)/2 <
        (8/10000 : ℚ) * 2 ^ ((52 : ℤ) - (-11)) - ((7378697629483820 : ℤ) : ℚ) := by
      norm_num
    exact (roundHalfEven_eq_floor_add_one hf hfr).trans (by norm_num)
  refine (fl_eval_pos (8/10000) (-11) 7378697629483821 (by norm_num) (by norm_num)
    (by norm_num) h4).trans ?_
  norm_num

lemma calculate_cost_eval :
    TokenMetrics.calculate_cost ⟨1000, 1000, 1⟩ "totally-unknown-model" =
      6917529027641081 / 9223372036854775808 := by
  have hp : pricingFor "totally-unknown-model" = (fl (15/100000), fl (6/10000)) := rfl
  simp only [TokenMetrics.calculate_cost, hp]
  simp only [fl_1000div, fl_15e5, fl_6e4, one_mul, fl_d1_fix, fl_d2_fix]
  rw [show (5534023222112865 / 36893488147419103232 : ℚ) +
      5534023222112865 / 9223372036854775808 = 27670116110564325 / 36893488147419103232 from
      by norm_num]
  exact fl_sum

lemma pyRound4_cost_eval :
    pyRound4 (6917529027641081 / 9223372036854775808) =
      6456360425798343 / 9223372036854775808 := by
  have h7 : roundHalfEven ((6917529027641081 / 9223372036854775808 : ℚ) * 10000) = 7 := by
    refine roundHalfEven_eq_floor ?_ ?_
    · rw [Int.floor_eq_iff] ; norm_num
    · norm_num
  simp only [pyRound4, h7]
  rw [show ((7 : ℤ) : ℚ) / 10000 = 7/10000 from by norm_num]
  exact fl_7

/-- C7 (amended): `estimated_cost_usd` is `round(cost, 4)` where `cost` is
the binary64 evaluation of `(total_input_tokens/1000)*priceIn +
(total_output_tokens/1000)*priceOut` on the selected model's pricing row
(falling back to gpt-4o-mini when the model is unknown).  For the fallback
row with 1000 input and 1000 output tokens, the parsed doubles for 0.00015
and 0.0006 both lie below their decimal values, so the computed cost is the
double 6917529027641081/2^63 — strictly below 0.00075 — and its 4-decimal
rounding is the double 0.0007, not 0.0008. -/
theorem c7_estimated_cost :
    (∀ m : MetricsTracker, m.get_summary.estimated_cost_usd =
      spec_estimated_cost m.tokens.total_input_tokens m.tokens.total_output_tokens
        (pricingFor m.model).1 (pricingFor m.model).2) ∧
    pricingFor "totally-unknown-model" = pricingFor "gpt-4o-mini" ∧
    TokenMetrics.calculate_cost ⟨1000, 1000, 1⟩ "totally-unknown-model" =
      6917529027641081 / 9223372036854775808 ∧
    (6917529027641081 / 9223372036854775808 : ℚ) < 3/4000 ∧
    pyRound4 (6917529027641081 / 9223372036854775808) = fl (7/10000) := by
  refine ⟨fun m => rfl, rfl, calculate_cost_eval, by norm_num, ?_⟩
  rw [pyRound4_cost_eval, fl_7]

/-- Counterexample for C7 as stated: in binary64 the fallback cost at
1000/1000 tokens is not 0.00075 (the doubles for 0.00015 and 0.0006 sum to
a value strictly below it), and `round(cost, 4)` yields the double 0.0007,
not the double 0.0008 the claim asserted. -/
theorem c7_float_rounding_counterexample :
    TokenMetrics.calculate_cost ⟨1000, 1000, 1⟩ "totally-unknown-model" ≠ 3/4000 ∧
    pyRound4 (TokenMetrics.calculate_cost ⟨1000, 1000, 1⟩ "totally-unknown-model") =
      fl (7/10000) ∧
    pyRound4 (TokenMetrics.calculate_cost ⟨1000, 1000, 1⟩ "totally-unknown-model") ≠
      fl (8/10000) := by
  refine ⟨?_, ?_, ?_⟩
  · rw [calculate_cost_eval] ; norm_num
  · rw [calculate_cost_eval, pyRound4_cost_eval, fl_7]
  · rw [calculate_cost_eval, pyRound4_cost_eval, fl_8] ; norm_num

/-- C9: `format_elapsed` renders the elapsed duration as zero-padded
`HH:MM:SS`: for every nonnegative elapsed duration the minutes and seconds
fields are two-digit values below 60, 3661 seconds gives "01:01:01",
0 seconds gives "00:00:00", and the hours field is unbounded (360000 seconds
gives "100:00:00"). -/
theorem c9_format_elapsed :
    (∀ t : TimeMetrics, 0 ≤ t.elapsed_seconds →
      ∃ h m s : ℕ, m < 60 ∧ s < 60 ∧
        t.format_elapsed =
          formatInt02 (h : ℤ) ++ ":" ++ formatInt02 (m : ℤ) ++ ":" ++ formatInt02 (s : ℤ) ∧
        (formatInt02 (m : ℤ)).length = 2 ∧ (formatInt02 (s : ℤ)).length = 2) ∧
    TimeMetrics.format_elapsed ⟨some 0, some 3661⟩ = "01:01:01" ∧
    TimeMetrics.format_elapsed ⟨some 0, some 0⟩ = "00:00:00" ∧
    TimeMetrics.format_elapsed ⟨some 0, some 360000⟩ = "100:00:00" := by
  have hm : ∀ n : ℕ, n % 3600 / 60 < 60 :=
    fun n => (Nat.div_lt_iff_lt_mul (by norm_num)).mpr (Nat.mod_lt _ (by norm_num))
  have hs : ∀ n : ℕ, n % 3600 % 60 < 60 := fun n => Nat.mod_lt _ (by norm_num)
  refine ⟨?_, ?_, ?_, ?_⟩
  · intro t ht
    have hfl : 0 ≤ ⌊t.elapsed_seconds⌋ := Int.floor_nonneg.mpr ht
    have hn : pyInt t.elapsed_seconds = ((⌊t.elapsed_seconds⌋.toNat : ℕ) : ℤ) := by
      rw [pyInt_of_nonneg ht, Int.toNat_of_nonneg hfl]
    exact ⟨_, _, _, hm _, hs _, format_elapsed_eq t _ hn,
      formatInt02_len_two _ (hm _), formatInt02_len_two _ (hs _)⟩
  · rw [format_elapsed_conc 3661 3661 (by norm_num)] ; decide
  · rw [format_elapsed_conc 0 0 (by norm_num)] ; decide
  · rw [format_elapsed_conc 360000 360000 (by norm_num)] ; decide

/-- Witness for C9: the universally quantified part applied to the concrete
state with start 0 and end 3661 seconds, its nonnegativity hypothesis
discharged there. -/
theorem c9_format_elapsed_witness :
    (0 : ℚ) ≤ TimeMetrics.elapsed_seconds ⟨some 0, some 3661⟩ ∧
    (∃ h m s : ℕ, m < 60 ∧ s < 60 ∧
      TimeMetrics.format_elapsed ⟨some 0, some 3661⟩ =
        formatInt02 (h : ℤ) ++ ":" ++ formatInt02 (m : ℤ) ++ ":" ++ formatInt02 (s : ℤ) ∧
      (formatInt02 (m : ℤ)).length = 2 ∧ (formatInt02 (s : ℤ)).length = 2) := by
  have pf : (0 : ℚ) ≤ TimeMetrics.elapsed_seconds ⟨some 0, some 3661⟩ := by
    show (0 : ℚ) ≤ 3661 - 0
    norm_num
  exact ⟨pf, c9_format_elapsed.1 _ pf⟩

/-- C10: `elapsed_seconds` is exactly 0 when `start_time` or `end_time` is
unset, and equals `end_time - start_time` when both are set. -/
theorem c10_elapsed_seconds :
    ∀ t : TimeMetrics,
      ((t.start_time = none ∨ t.end_time = none) → t.elapsed_seconds = 0) ∧
      (∀ s e : ℚ, t.start_time = some s → t.end_time = some e →
        t.elapsed_seconds = e - s) := by
  rintro ⟨st, en⟩
  constructor
  · rintro (h | h)
    · cases h ; cases en <;> rfl
    · cases h ; cases st <;> rfl
  · rintro s e rfl rfl
    rfl

/-- Witness for C10: both conjuncts applied at concrete states, with the
option hypotheses discharged there. -/
theorem c10_elapsed_seconds_witness :
    TimeMetrics.elapsed_seconds ⟨none, some 5⟩ = 0 ∧
    TimeMetrics.elapsed_seconds ⟨some 2, some 5⟩ = 5 - 2 :=
  ⟨(c10_elapsed_seconds ⟨none, some 5⟩).1 (Or.inl rfl),
   (c10_elapsed_seconds ⟨some 2, some 5⟩).2 2 5 rfl rfl⟩

/-! ## Helper lemmas for the crawler claims -/

@[simp] lemma recordSkipped_visited (st : CrawlState) (u r : String) :
    (st.recordSkipped u r).visited = st.visited := rfl

@[simp] lemma recordSkipped_content (st : CrawlState) (u r : String) :
    (st.recordSkipped u r).content = st.content := rfl

@[simp] lemma recordSkipped_events (st : CrawlState) (u r : String) :
    (st.recordSkipped u r).events = st.events ++ [⟨u, .skipped r⟩] := rfl

@[simp] lemma recordCrawled_visited (st : CrawlState) (u : String) :
    (st.recordCrawled u).visited = st.visited := rfl

@[simp] lemma recordCrawled_content (st : CrawlState) (u : String) :
    (st.recordCrawled u).content = st.content := rfl

@[simp] lemma recordCrawled_events (st : CrawlState) (u : String) :
    (st.recordCrawled u).events = st.events ++ [⟨u, .crawled⟩] := rfl

/-- The skip reasons the inner `crawl` closure can record. -/
def CrawlReason (r : String) : Prop :=
  r = "max_limit_reached" ∨ r = "duplicate" ∨ r = "max_depth_exceeded" ∨
    r = "domain_mismatch" ∨ (∃ m, r = "navigation_error: " ++ m) ∨
    (∃ m, r = "content_error: " ++ m)

lemma crawlLinks_preserve (P : CrawlState → Prop) (env : CrawlEnv)
    (f : String → CrawlState → CrawlState) (hf : ∀ l s, P s → P (f l s)) :
    ∀ links st, P st → P (crawlLinks env f links st) := by
  intro links
  induction links with
  | nil => intro st h ; exact h
  | cons l rest ih =>
    intro st h
    simp only [crawlLinks]
    split
    · exact h
    · split
      · exact ih _ (hf _ _ h)
      · exact ih _ h

lemma crawl_preserve (env : CrawlEnv) (P : CrawlState → Prop)
    (hskip : ∀ st u r, CrawlReason r → P st → P (st.recordSkipped u r))
    (hcrawled : ∀ st u, P st → P (st.recordCrawled u))
    (hvis : ∀ st u, P st → P { st with visited := st.visited ++ [u] })
    (hcont : ∀ st u c, P st → P { st with content := st.content ++ [(u, c)] }) :
    ∀ fuel url depth st, P st → P (crawl env fuel url depth st) := by
  intro fuel
  induction fuel with
  | zero => intro url depth st h ; exact h
  | succ fuel ih =>
    intro url depth st h
    simp only [crawl]
    split
    · exact hskip _ _ _ (Or.inl rfl) h
    · split
      · exact hskip _ _ _ (Or.inr (Or.inl rfl)) h
      · split
        · exact hskip _ _ _ (Or.inr (Or.inr (Or.inl rfl))) h
        · split
          · exact hskip _ _ _ (Or.inr (Or.inr (Or.inr (Or.inl rfl)))) h
          · simp only [crawlNav]
            split
            · exact hskip _ _ _ (Or.inr (Or.inr (Or.inr (Or.inr (Or.inl ⟨_, rfl⟩)))))
                (hvis _ _ h)
            · split
              · exact hskip _ _ _ (Or.inr (Or.inr (Or.inr (Or.inr (Or.inr ⟨_, rfl⟩)))))
                  (hvis _ _ h)
              · have h2 := hcrawled _ url (hcont _ url (env.page url).content (hvis st url h))
                split
                · split
                  · exact crawlLinks_preserve P env _ (fun l s hs => ih l (depth + 1) s hs)
                      _ _ h2
                  · exact h2
                · exact h2

lemma crawlSeeds_preserve (P : CrawlState → Prop) (env : CrawlEnv) (fuel : ℕ)
    (hc : ∀ u st, P st → P (crawl env fuel u 0 st)) :
    ∀ seeds st, P st → P (crawlSeeds env fuel seeds st) := by
  intro seeds
  induction seeds with
  | nil => intro st h ; exact h
  | cons u rest ih =>
    intro st h
    simp only [crawlSeeds]
    split
    · exact h
    · exact ih _ (hc _ _ h)


lemma crawl_content_le (env : CrawlEnv) :
    ∀ fuel url depth st, st.content.length ≤ env.maxPages →
      (crawl env fuel url depth st).content.length ≤ env.maxPages := by
  intro fuel
  induction fuel with
  | zero => intro url depth st h ; exact h
  | succ fuel ih =>
    intro url depth st h
    simp only [crawl]
    split
    · simpa using h
    · split
      · simpa using h
      · split
        · simpa using h
        · split
          · simpa using h
          · simp only [crawlNav]
            split
            · simpa using h
            · split
              · simpa using h
              · split
                · split
                  · apply crawlLinks_preserve (fun s => s.content.length ≤ env.maxPages) env _
                      (fun l s hs => ih l (depth + 1) s hs)
                    simp only [recordCrawled_content, List.length_append, List.length_cons,
                      List.length_nil]
                    omega
                  · simp only [recordCrawled_content, List.length_append, List.length_cons,
                      List.length_nil]
                    omega
                · simp only [recordCrawled_content, List.length_append, List.length_cons,
                    List.length_nil]
                  omega

lemma crawl_eq_limit (env : CrawlEnv) (fuel : ℕ) (url : String) (depth : ℕ) (st : CrawlState)
    (h : env.maxPages ≤ st.content.length) :
    crawl env (fuel + 1) url depth st = st.recordSkipped url "max_limit_reached" := by
  simp only [crawl]
  rw [if_pos h]

lemma crawl_eq_dup (env : CrawlEnv) (fuel : ℕ) (url : String) (depth : ℕ) (st : CrawlState)
    (h1 : st.content.length < env.maxPages) (h2 : url ∈ st.visited) :
    crawl env (fuel + 1) url depth st = st.recordSkipped url "duplicate" := by
  simp only [crawl]
  rw [if_neg (not_le.mpr h1), if_pos h2]

lemma crawl_eq_depth (env : CrawlEnv) (fuel : ℕ) (url : String) (depth : ℕ) (st : CrawlState)
    (h1 : st.content.length < env.maxPages) (h2 : url ∉ st.visited)
    (h3 : env.maxDepth < depth) :
    crawl env (fuel + 1) url depth st = st.recordSkipped url "max_depth_exceeded" := by
  simp only [crawl]
  rw [if_neg (not_le.mpr h1), if_neg h2, if_pos h3]

lemma crawl_eq_domain (env : CrawlEnv) (fuel : ℕ) (url : String) (depth : ℕ) (st : CrawlState)
    (h1 : st.content.length < env.maxPages) (h2 : url ∉ st.visited)
    (h3 : depth ≤ env.maxDepth) (h4 : env.netloc url ≠ env.baseDomain) :
    crawl env (fuel + 1) url depth st = st.recordSkipped url "domain_mismatch" := by
  simp only [crawl]
  rw [if_neg (not_le.mpr h1), if_neg h2, if_neg (not_lt.mpr h3), if_pos h4]

lemma crawl_eq_nav (env : CrawlEnv) (fuel : ℕ) (url : String) (depth : ℕ) (st : CrawlState)
    (h1 : st.content.length < env.maxPages) (h2 : url ∉ st.visited)
    (h3 : depth ≤ env.maxDepth) (h4 : env.netloc url = env.baseDomain) :
    crawl env (fuel + 1) url depth st =
      crawlNav env (fun l s => crawl env fuel l (depth + 1) s) url st := by
  simp only [crawl]
  rw [if_neg (not_le.mpr h1), if_neg h2, if_neg (not_lt.mpr h3),
    if_neg (fun hh => hh h4)]

lemma crawl_visited_nodup (env : CrawlEnv) :
    ∀ fuel url depth st, st.visited.Nodup → (crawl env fuel url depth st).visited.Nodup := by
  intro fuel
  induction fuel with
  | zero => intro url depth st h ; exact h
  | succ fuel ih =>
    intro url depth st h
    simp only [crawl]
    split
    · simpa using h
    · split
      · simpa using h
      · split
        · simpa using h
        · split
          · simpa using h
          · rename_i hnv _ _
            simp only [crawlNav]
            have hnd : (st.visited ++ [url]).Nodup :=
              h.append (List.nodup_singleton url) (List.disjoint_singleton.mpr hnv)
            split
            · simpa using hnd
            · split
              · simpa using hnd
              · split
                · split
                  · apply crawlLinks_preserve (fun s => s.visited.Nodup) env _
                      (fun l s hs => ih l (depth + 1) s hs)
                    simpa using hnd
                  · simpa using hnd
                · simpa using hnd


lemma sumBuckets_addToBucket (b : List (String × List String)) (r u : String) :
    sumBuckets (addToBucket b r u) = sumBuckets b + 1 := by
  induction b with
  | nil => simp [addToBucket, sumBuckets]
  | cons p rest ih =>
    obtain ⟨r0, us⟩ := p
    simp only [addToBucket]
    split
    · simp [sumBuckets, List.length_append]
      omega
    · simp only [sumBuckets, List.map_cons, List.sum_cons] at *
      omega

lemma bucketGet_addToBucket_eq (b : List (String × List String)) (r u : String) :
    bucketGet (addToBucket b r u) r = bucketGet b r ++ [u] := by
  induction b with
  | nil => simp [addToBucket, bucketGet, List.lookup]
  | cons p rest ih =>
    obtain ⟨r0, us⟩ := p
    simp only [addToBucket]
    split
    · rename_i he
      subst he
      simp [bucketGet, List.lookup]
    · rename_i he
      simp only [bucketGet, List.lookup] at *
      rw [show (r == r0) = false from beq_eq_false_iff_ne.mpr (fun hh => he hh.symm)] at *
      exact ih

lemma bucketGet_addToBucket_ne (b : List (String × List String)) (r u r0 : String)
    (h : r0 ≠ r) : bucketGet (addToBucket b r u) r0 = bucketGet b r0 := by
  induction b with
  | nil => simp [addToBucket, bucketGet, List.lookup, show (r0 == r) = false from
      beq_eq_false_iff_ne.mpr h]
  | cons p rest ih =>
    obtain ⟨r1, us⟩ := p
    simp only [addToBucket]
    split
    · rename_i he
      subst he
      simp [bucketGet, List.lookup, show (r0 == r1) = false from beq_eq_false_iff_ne.mpr h]
    · simp only [bucketGet, List.lookup] at *
      cases hbe : (r0 == r1) with
      | true => simp
      | false => simpa using ih

lemma mem_bucketGet_mono (b : List (String × List String)) (r u r0 x : String)
    (h : x ∈ bucketGet b r0) : x ∈ bucketGet (addToBucket b r u) r0 := by
  by_cases hr : r0 = r
  · subst hr
    rw [bucketGet_addToBucket_eq]
    exact List.mem_append_left _ h
  · rwa [bucketGet_addToBucket_ne _ _ _ _ hr]

lemma mem_bucketGet_self (b : List (String × List String)) (r u : String) :
    u ∈ bucketGet (addToBucket b r u) r := by
  rw [bucketGet_addToBucket_eq]
  exact List.mem_append_right _ (List.mem_singleton.mpr rfl)

lemma mem_keys_addToBucket (b : List (String × List String)) (r u x : String)
    (h : x ∈ (addToBucket b r u).map Prod.fst) : x ∈ b.map Prod.fst ∨ x = r := by
  induction b with
  | nil => simpa [addToBucket] using h
  | cons p rest ih =>
    obtain ⟨r1, us⟩ := p
    simp only [addToBucket] at h
    split at h
    · simp only [List.map_cons] at h ⊢
      exact Or.inl h
    · simp only [List.map_cons, List.mem_cons] at h ⊢
      rcases h with h | h
      · exact Or.inl (Or.inl h)
      · rcases ih h with h2 | h2
        · exact Or.inl (Or.inr h2)
        · exact Or.inr h2


lemma crawl_events_mono (env : CrawlEnv) (fuel : ℕ) (url : String) (depth : ℕ)
    (st : CrawlState) : ∃ t, (crawl env fuel url depth st).events = st.events ++ t := by
  refine crawl_preserve env (fun s => ∃ t, s.events = st.events ++ t)
    ?_ ?_ ?_ ?_ fuel url depth st ⟨[], by simp⟩
  · rintro s u r _ ⟨t, ht⟩
    exact ⟨t ++ [⟨u, .skipped r⟩], by simp [ht]⟩
  · rintro s u ⟨t, ht⟩
    exact ⟨t ++ [⟨u, .crawled⟩], by simp [ht]⟩
  · rintro s u ⟨t, ht⟩
    exact ⟨t, ht⟩
  · rintro s u c ⟨t, ht⟩
    exact ⟨t, ht⟩

lemma crawl_budget_persist (env : CrawlEnv) (fuel : ℕ) (url : String) (depth : ℕ)
    (st : CrawlState) (h : env.maxPages ≤ st.content.length) :
    env.maxPages ≤ (crawl env fuel url depth st).content.length := by
  refine crawl_preserve env (fun s => env.maxPages ≤ s.content.length)
    ?_ ?_ ?_ ?_ fuel url depth st h
  · intro s u r _ hs
    simpa using hs
  · intro s u hs
    simpa using hs
  · intro s u hs
    simpa using hs
  · intro s u c hs
    simp only [List.length_append, List.length_cons, List.length_nil]
    omega

lemma crawlLinks_events_mono (env : CrawlEnv) (f : String → CrawlState → CrawlState)
    (hf : ∀ l s, ∃ t, (f l s).events = s.events ++ t) :
    ∀ links st, ∃ t, (crawlLinks env f links st).events = st.events ++ t := by
  intro links
  induction links with
  | nil => intro st ; exact ⟨[], by simp [crawlLinks]⟩
  | cons l rest ih =>
    intro st
    simp only [crawlLinks]
    split
    · exact ⟨[], by simp⟩
    · rcases ih (if linkEligible env l = true then f l st else st) with ⟨t2, ht2⟩
      rw [ht2]
      by_cases he : linkEligible env l = true
      · rcases hf l st with ⟨t1, ht1⟩
        rw [if_pos he, ht1]
        exact ⟨t1 ++ t2, by simp⟩
      · rw [if_neg he]
        exact ⟨t2, rfl⟩

lemma crawlLinks_budget_persist (env : CrawlEnv) (f : String → CrawlState → CrawlState)
    (hf : ∀ l s, env.maxPages ≤ s.content.length → env.maxPages ≤ (f l s).content.length) :
    ∀ links st, env.maxPages ≤ st.content.length →
      env.maxPages ≤ (crawlLinks env f links st).content.length :=
  fun links st h => crawlLinks_preserve (fun s => env.maxPages ≤ s.content.length) env f
    (fun l s hs => hf l s hs) links st h

lemma crawlSeeds_events_mono (env : CrawlEnv) (fuel : ℕ) :
    ∀ seeds st, ∃ t, (crawlSeeds env fuel seeds st).events = st.events ++ t := by
  intro seeds
  induction seeds with
  | nil => intro st ; exact ⟨[], by simp [crawlSeeds]⟩
  | cons u rest ih =>
    intro st
    simp only [crawlSeeds]
    split
    · exact ⟨[], by simp⟩
    · rcases ih (crawl env fuel u 0 st) with ⟨t2, ht2⟩
      rcases crawl_events_mono env fuel u 0 st with ⟨t1, ht1⟩
      rw [ht2, ht1]
      exact ⟨t1 ++ t2, by simp⟩

lemma crawlNav_first_event (env : CrawlEnv) (recur : String → CrawlState → CrawlState)
    (url : String) (st : CrawlState)
    (hrec : ∀ l s, ∃ t, (recur l s).events = s.events ++ t) :
    ∃ o t, (crawlNav env recur url st).events = st.events ++ ⟨url, o⟩ :: t := by
  simp only [crawlNav]
  split
  · exact ⟨.skipped ("navigation_error: " ++ ((env.page url).navErr.take 50)), [], by simp⟩
  · split
    · exact ⟨.skipped ("content_error: " ++ ((env.page url).contentErr.take 50)), [], by simp⟩
    · split
      · split
        · obtain ⟨t, ht⟩ := crawlLinks_events_mono env recur hrec (env.page url).links
            (CrawlState.recordCrawled ⟨st.visited ++ [url],
              st.content ++ [(url, (env.page url).content)], st.metrics, st.events⟩ url)
          refine ⟨.crawled, t, Eq.trans ht ?_⟩
          simp [CrawlState.recordCrawled]
        · exact ⟨.crawled, [], by simp⟩
      · exact ⟨.crawled, [], by simp⟩

lemma crawl_first_event (env : CrawlEnv) (fuel : ℕ) (url : String) (depth : ℕ)
    (st : CrawlState) :
    ∃ o t, (crawl env (fuel + 1) url depth st).events = st.events ++ ⟨url, o⟩ :: t := by
  simp only [crawl]
  split
  · exact ⟨.skipped "max_limit_reached", [], by simp⟩
  · split
    · exact ⟨.skipped "duplicate", [], by simp⟩
    · split
      · exact ⟨.skipped "max_depth_exceeded", [], by simp⟩
      · split
        · exact ⟨.skipped "domain_mismatch", [], by simp⟩
        · exact crawlNav_first_event env _ url st
            (fun l s => crawl_events_mono env fuel l (depth + 1) s)

lemma crawlLinks_accounted (env : CrawlEnv) (f : String → CrawlState → CrawlState)
    (hfe : ∀ l s, ∃ t, (f l s).events = s.events ++ t)
    (hf1 : ∀ l s, ∃ o t, (f l s).events = s.events ++ ⟨l, o⟩ :: t) :
    ∀ links st link, link ∈ links → linkEligible env link = true →
      (∃ e ∈ (crawlLinks env f links st).events, e.url = link) ∨
        env.maxPages ≤ (crawlLinks env f links st).content.length := by
  intro links
  induction links with
  | nil => intro st link hmem ; exact absurd hmem (List.not_mem_nil link)
  | cons l rest ih =>
    intro st link hmem hel
    simp only [crawlLinks]
    split
    · rename_i hb
      exact Or.inr hb
    · rcases List.mem_cons.mp hmem with hl | hl
      · subst hl
        rw [if_pos hel]
        rcases hf1 link st with ⟨o, t, ht⟩
        rcases crawlLinks_events_mono env f hfe rest (f link st) with ⟨t2, ht2⟩
        refine Or.inl ⟨⟨link, o⟩, ?_, rfl⟩
        rw [ht2, ht]
        exact List.mem_append_left _ (List.mem_append_right _ (List.mem_cons_self _ _))
      · exact ih _ link hl hel

lemma crawlSeeds_accounted (env : CrawlEnv) (fuel : ℕ) :
    ∀ seeds st seed, seed ∈ seeds →
      (∃ e ∈ (crawlSeeds env (fuel + 1) seeds st).events, e.url = seed) ∨
        env.maxPages ≤ (crawlSeeds env (fuel + 1) seeds st).content.length := by
  intro seeds
  induction seeds with
  | nil => intro st seed hmem ; exact absurd hmem (List.not_mem_nil seed)
  | cons u rest ih =>
    intro st seed hmem
    simp only [crawlSeeds]
    split
    · rename_i hb
      exact Or.inr hb
    · rcases List.mem_cons.mp hmem with hl | hl
      · subst hl
        rcases crawl_first_event env fuel seed 0 st with ⟨o, t, ht⟩
        rcases crawlSeeds_events_mono env (fuel + 1) rest (crawl env (fuel + 1) seed 0 st)
          with ⟨t2, ht2⟩
        refine Or.inl ⟨⟨seed, o⟩, ?_, rfl⟩
        rw [ht2, ht]
        exact List.mem_append_left _ (List.mem_append_right _ (List.mem_cons_self _ _))
      · exact ih _ seed hl

lemma crawlTop_preserve (env : CrawlEnv) (fuel : ℕ) (seeds : List String) (main : String)
    (st0 : CrawlState) (P : CrawlState → Prop)
    (hc : ∀ fuel u d st, P st → P (crawl env fuel u d st)) (h0 : P st0) :
    P (crawlTop env fuel seeds main st0) := by
  simp only [crawlTop]
  have h1 : P (crawlSeeds env fuel seeds st0) :=
    crawlSeeds_preserve P env fuel (fun u st h => hc fuel u 0 st h) seeds st0 h0
  split
  · exact hc fuel main 0 _ h1
  · exact h1

lemma crawlTop_seeds_accounted (env : CrawlEnv) (fuel : ℕ) (seeds : List String)
    (main : String) (st0 : CrawlState) :
    ∀ seed ∈ seeds, (∃ e ∈ (crawlTop env (fuel + 1) seeds main st0).events, e.url = seed) ∨
      env.maxPages ≤ (crawlTop env (fuel + 1) seeds main st0).content.length := by
  intro seed hs
  simp only [crawlTop]
  split
  · rcases crawlSeeds_accounted env fuel seeds st0 seed hs with ⟨e, he, hu⟩ | hfull
    · rcases crawl_events_mono env (fuel + 1) main 0 (crawlSeeds env (fuel + 1) seeds st0)
        with ⟨t, ht⟩
      exact Or.inl ⟨e, by rw [ht] ; exact List.mem_append_left _ he, hu⟩
    · exact Or.inr (crawl_budget_persist env (fuel + 1) main 0 _ hfull)
  · exact crawlSeeds_accounted env fuel seeds st0 seed hs

lemma no_login_preserve (nl : String → String) (pg : String → PageResult) (su : String)
    (add : List String) (mp : ℕ) (m0 : MetricsTracker) (P : CrawlState → Prop)
    (hc : ∀ fuel u d st, P st → P (crawl ⟨nl, pg, nl su, mp, 2⟩ fuel u d st))
    (h0 : P ⟨[], [], m0, []⟩) :
    P (crawl_all_pages_no_login nl pg su add mp m0) := by
  simp only [crawl_all_pages_no_login]
  exact crawlTop_preserve _ _ _ _ _ P hc h0

lemma login_preserve (nl : String → String) (pg : String → PageResult) (aenv : AuthEnv)
    (url login_url : String) (add : List String) (mp : ℕ) (m0 : MetricsTracker)
    (P : CrawlState → Prop)
    (hc : ∀ fuel u d st, P st → P (crawl ⟨nl, pg, nl login_url, mp, 2⟩ fuel u d st))
    (h0 : P ⟨[], [], (navigate_authenticated_site aenv login_url url m0).metrics,
      (navigate_authenticated_site aenv login_url url m0).events⟩) :
    P (login_and_crawl_all_pages nl pg aenv url login_url add mp m0) := by
  simp only [login_and_crawl_all_pages]
  split
  · exact h0
  · exact crawlTop_preserve _ _ _ _ _ P hc h0

/-- The bookkeeping invariant behind claim C3: crawled plus skipped counts
(the latter as the total size of the reason buckets) equal the number of
recorded decision events. -/
def countOk (st : CrawlState) : Prop :=
  st.metrics.crawl.pages_crawled + sumBuckets st.metrics.crawl.skip_reasons = st.events.length

lemma crawl_countOk (env : CrawlEnv) :
    ∀ fuel u d st, countOk st → countOk (crawl env fuel u d st) := by
  refine crawl_preserve env countOk ?_ ?_ ?_ ?_
  · intro s u r _ h
    simp only [countOk, CrawlState.recordSkipped, MetricsTracker.record_page_skipped,
      sumBuckets_addToBucket, List.length_append, List.length_cons, List.length_nil] at *
    omega
  · intro s u h
    simp only [countOk, CrawlState.recordCrawled, MetricsTracker.record_page_crawled,
      List.length_append, List.length_cons, List.length_nil] at *
    omega
  · intro s u h
    exact h
  · intro s u c h
    exact h

/-- Every skip reason the spec's enumeration, as a prefix of the recorded
reason string. -/
def ReasonOk (r : String) : Prop :=
  ∃ base ∈ skipReasonEnum, ∃ rest, r = base ++ rest

lemma crawlReason_ok (r : String) (h : CrawlReason r) : ReasonOk r := by
  rcases h with rfl | rfl | rfl | rfl | ⟨m, rfl⟩ | ⟨m, rfl⟩
  · exact ⟨"max_limit_reached", by decide, "", by decide⟩
  · exact ⟨"duplicate", by decide, "", by decide⟩
  · exact ⟨"max_depth_exceeded", by decide, "", by decide⟩
  · exact ⟨"domain_mismatch", by decide, "", by decide⟩
  · exact ⟨"navigation_error", by decide, ": " ++ m, by rw [← String.append_assoc] ; exact rfl⟩
  · exact ⟨"content_error", by decide, ": " ++ m, by rw [← String.append_assoc] ; exact rfl⟩

/-- Invariant behind claim C4: every key of the skip-reason dict starts with
a member of the closed enumeration. -/
def keysOk (st : CrawlState) : Prop :=
  ∀ x ∈ st.metrics.crawl.skip_reasons.map Prod.fst, ReasonOk x

lemma crawl_keysOk (env : CrawlEnv) :
    ∀ fuel u d st, keysOk st → keysOk (crawl env fuel u d st) := by
  refine crawl_preserve env keysOk ?_ ?_ ?_ ?_
  · intro s u r hr h x hx
    simp only [CrawlState.recordSkipped, MetricsTracker.record_page_skipped] at hx
    rcases mem_keys_addToBucket _ _ _ _ hx with h2 | rfl
    · exact h x h2
    · exact crawlReason_ok x hr
  · intro s u h x hx
    exact h x hx
  · intro s u h
    exact h
  · intro s u c h
    exact h

/-- Invariant behind claim C5: every recorded skip event is accounted in the
bucket of its reason. -/
def eventsBucketed (st : CrawlState) : Prop :=
  ∀ e ∈ st.events, ∀ r, e.outcome = Outcome.skipped r →
    e.url ∈ bucketGet st.metrics.crawl.skip_reasons r

lemma crawl_eventsBucketed (env : CrawlEnv) :
    ∀ fuel u d st, eventsBucketed st → eventsBucketed (crawl env fuel u d st) := by
  refine crawl_preserve env eventsBucketed ?_ ?_ ?_ ?_
  · intro s u r _ h e he r0 ho
    simp only [CrawlState.recordSkipped, MetricsTracker.record_page_skipped] at he ⊢
    rcases List.mem_append.mp he with he | he
    · exact mem_bucketGet_mono _ _ _ _ _ (h e he r0 ho)
    · rw [List.mem_singleton.mp he] at ho ⊢
      cases ho
      exact mem_bucketGet_self _ _ _
  · intro s u h e he r0 ho
    simp only [CrawlState.recordCrawled, MetricsTracker.record_page_crawled] at he ⊢
    rcases List.mem_append.mp he with he | he
    · exact h e he r0 ho
    · rw [List.mem_singleton.mp he] at ho
      cases ho
  · intro s u h
    exact h
  · intro s u c h
    exact h



lemma navigate_throws (aenv : AuthEnv) (lu su : String) (m : MetricsTracker)
    (h : aenv.authThrows = true) :
    navigate_authenticated_site aenv lu su m =
      ⟨false, lu, m.record_page_skipped lu ("auth_error: " ++ aenv.authErr.take 50),
        [⟨lu, .skipped ("auth_error: " ++ aenv.authErr.take 50)⟩]⟩ := by
  simp only [navigate_authenticated_site, h, if_true]

lemma navigate_login_error (aenv : AuthEnv) (lu su : String) (m : MetricsTracker) (t : String)
    (h1 : aenv.authThrows = false) (h2 : aenv.postLoginUrl = lu)
    (h3 : aenv.loginErrorText = some t) :
    navigate_authenticated_site aenv lu su m =
      ⟨false, lu, m.record_page_skipped lu ("login_failed: " ++ t.take 50),
        [⟨lu, .skipped ("login_failed: " ++ t.take 50)⟩]⟩ := by
  simp [navigate_authenticated_site, h1, h2, h3]

lemma navigate_no_redirect (aenv : AuthEnv) (lu su : String) (m : MetricsTracker)
    (h1 : aenv.authThrows = false) (h2 : aenv.postLoginUrl = lu)
    (h3 : aenv.loginErrorText = none) :
    navigate_authenticated_site aenv lu su m =
      ⟨false, lu, m.record_page_skipped lu "login_failed_no_redirect",
        [⟨lu, .skipped "login_failed_no_redirect"⟩]⟩ := by
  simp [navigate_authenticated_site, h1, h2, h3]

lemma navigate_start_ok (aenv : AuthEnv) (lu su : String) (m : MetricsTracker)
    (h1 : aenv.authThrows = false) (h2 : aenv.postLoginUrl ≠ lu)
    (h4 : su ≠ "" ∧ su ≠ lu ∧ su ≠ aenv.postLoginUrl) (h5 : aenv.startNavOk = true) :
    navigate_authenticated_site aenv lu su m = ⟨true, su, m, []⟩ := by
  simp [navigate_authenticated_site, h1, h2, h4, h5]

lemma navigate_start_fail (aenv : AuthEnv) (lu su : String) (m : MetricsTracker)
    (h1 : aenv.authThrows = false) (h2 : aenv.postLoginUrl ≠ lu)
    (h4 : su ≠ "" ∧ su ≠ lu ∧ su ≠ aenv.postLoginUrl) (h5 : aenv.startNavOk = false) :
    navigate_authenticated_site aenv lu su m =
      ⟨true, aenv.postLoginUrl,
        m.record_page_skipped su ("navigation_error: " ++ aenv.startNavErr.take 50),
        [⟨su, .skipped ("navigation_error: " ++ aenv.startNavErr.take 50)⟩]⟩ := by
  simp [navigate_authenticated_site, h1, h2, h4, h5]

lemma navigate_plain (aenv : AuthEnv) (lu su : String) (m : MetricsTracker)
    (h1 : aenv.authThrows = false) (h2 : aenv.postLoginUrl ≠ lu)
    (h4 : ¬(su ≠ "" ∧ su ≠ lu ∧ su ≠ aenv.postLoginUrl)) :
    navigate_authenticated_site aenv lu su m = ⟨true, aenv.postLoginUrl, m, []⟩ := by
  simp only [navigate_authenticated_site, h1, Bool.false_eq_true, if_false, if_neg h2,
    if_neg h4]

/-- Case analysis driver: any fact of the navigate result that holds for each
of the six outcome shapes. -/
lemma navigate_cases (aenv : AuthEnv) (lu su : String) (m : MetricsTracker)
    (P : AuthResult → Prop)
    (hthrow : ∀ r, P ⟨false, lu, m.record_page_skipped lu ("auth_error: " ++ r),
      [⟨lu, .skipped ("auth_error: " ++ r)⟩]⟩)
    (herr : ∀ r, P ⟨false, lu, m.record_page_skipped lu ("login_failed: " ++ r),
      [⟨lu, .skipped ("login_failed: " ++ r)⟩]⟩)
    (hnored : P ⟨false, lu, m.record_page_skipped lu "login_failed_no_redirect",
      [⟨lu, .skipped "login_failed_no_redirect"⟩]⟩)
    (hok1 : P ⟨true, su, m, []⟩)
    (hok2 : ∀ r, P ⟨true, aenv.postLoginUrl,
      m.record_page_skipped su ("navigation_error: " ++ r),
      [⟨su, .skipped ("navigation_error: " ++ r)⟩]⟩)
    (hok3 : P ⟨true, aenv.postLoginUrl, m, []⟩) :
    P (navigate_authenticated_site aenv lu su m) := by
  cases hb : aenv.authThrows with
  | true => rw [navigate_throws aenv lu su m hb] ; exact hthrow _
  | false =>
    by_cases hp : aenv.postLoginUrl = lu
    · cases hle : aenv.loginErrorText with
      | some t => rw [navigate_login_error aenv lu su m t hb hp hle] ; exact herr _
      | none => rw [navigate_no_redirect aenv lu su m hb hp hle] ; exact hnored
    · by_cases h4 : su ≠ "" ∧ su ≠ lu ∧ su ≠ aenv.postLoginUrl
      · cases hs : aenv.startNavOk with
        | true => rw [navigate_start_ok aenv lu su m hb hp h4 hs] ; exact hok1
        | false => rw [navigate_start_fail aenv lu su m hb hp h4 hs] ; exact hok2 _
      · rw [navigate_plain aenv lu su m hb hp h4] ; exact hok3


lemma navigate_countOk (aenv : AuthEnv) (lu su model : String) :
    countOk ⟨[], [], (navigate_authenticated_site aenv lu su (MetricsTracker.init model)).metrics,
      (navigate_authenticated_site aenv lu su (MetricsTracker.init model)).events⟩ := by
  refine navigate_cases aenv lu su (MetricsTracker.init model)
    (fun ar => countOk ⟨[], [], ar.metrics, ar.events⟩) ?_ ?_ ?_ ?_ ?_ ?_
  · intro r
    simp [countOk, MetricsTracker.record_page_skipped, MetricsTracker.init, sumBuckets,
      addToBucket]
  · intro r
    simp [countOk, MetricsTracker.record_page_skipped, MetricsTracker.init, sumBuckets,
      addToBucket]
  · simp [countOk, MetricsTracker.record_page_skipped, MetricsTracker.init, sumBuckets,
      addToBucket]
  · simp [countOk, MetricsTracker.init, sumBuckets]
  · intro r
    simp [countOk, MetricsTracker.record_page_skipped, MetricsTracker.init, sumBuckets,
      addToBucket]
  · simp [countOk, MetricsTracker.init, sumBuckets]

lemma navigate_keysOk (aenv : AuthEnv) (lu su model : String) :
    keysOk ⟨[], [], (navigate_authenticated_site aenv lu su (MetricsTracker.init model)).metrics,
      (navigate_authenticated_site aenv lu su (MetricsTracker.init model)).events⟩ := by
  refine navigate_cases aenv lu su (MetricsTracker.init model)
    (fun ar => keysOk ⟨[], [], ar.metrics, ar.events⟩) ?_ ?_ ?_ ?_ ?_ ?_
  · intro r x hx
    simp only [MetricsTracker.record_page_skipped, MetricsTracker.init, addToBucket,
      List.map_cons, List.map_nil, List.mem_cons, List.not_mem_nil, or_false] at hx
    subst hx
    exact ⟨"auth_error", by decide, ": " ++ r, by rw [← String.append_assoc] ; exact rfl⟩
  · intro r x hx
    simp only [MetricsTracker.record_page_skipped, MetricsTracker.init, addToBucket,
      List.map_cons, List.map_nil, List.mem_cons, List.not_mem_nil, or_false] at hx
    subst hx
    exact ⟨"login_failed", by decide, ": " ++ r, by rw [← String.append_assoc] ; exact rfl⟩
  · intro x hx
    simp only [MetricsTracker.record_page_skipped, MetricsTracker.init, addToBucket,
      List.map_cons, List.map_nil, List.mem_cons, List.not_mem_nil, or_false] at hx
    subst hx
    exact ⟨"login_failed", by decide, "_no_redirect", by decide⟩
  · intro x hx
    simp [MetricsTracker.init] at hx
  · intro r x hx
    simp only [MetricsTracker.record_page_skipped, MetricsTracker.init, addToBucket,
      List.map_cons, List.map_nil, List.mem_cons, List.not_mem_nil, or_false] at hx
    subst hx
    exact ⟨"navigation_error", by decide, ": " ++ r, by rw [← String.append_assoc] ; exact rfl⟩
  · intro x hx
    simp [MetricsTracker.init] at hx

lemma navigate_eventsBucketed (aenv : AuthEnv) (lu su : String) (m0 : MetricsTracker) :
    eventsBucketed ⟨[], [], (navigate_authenticated_site aenv lu su m0).metrics,
      (navigate_authenticated_site aenv lu su m0).events⟩ := by
  refine navigate_cases aenv lu su m0
    (fun ar => eventsBucketed ⟨[], [], ar.metrics, ar.events⟩) ?_ ?_ ?_ ?_ ?_ ?_
  · intro r e he r0 ho
    rw [List.mem_singleton.mp he] at ho ⊢
    cases ho
    exact mem_bucketGet_self _ _ _
  · intro r e he r0 ho
    rw [List.mem_singleton.mp he] at ho ⊢
    cases ho
    exact mem_bucketGet_self _ _ _
  · intro e he r0 ho
    rw [List.mem_singleton.mp he] at ho ⊢
    cases ho
    exact mem_bucketGet_self _ _ _
  · intro e he
    simp at he
  · intro r e he r0 ho
    rw [List.mem_singleton.mp he] at ho ⊢
    cases ho
    exact mem_bucketGet_self _ _ _
  · intro e he
    simp at he


lemma navigate_success_iff (aenv : AuthEnv) (lu su : String) (m : MetricsTracker) :
    (navigate_authenticated_site aenv lu su m).success = false ↔
      (aenv.authThrows = true ∨ aenv.postLoginUrl = lu) := by
  constructor
  · intro h
    cases hb : aenv.authThrows with
    | true => exact Or.inl rfl
    | false =>
      by_cases hp : aenv.postLoginUrl = lu
      · exact Or.inr hp
      · exfalso
        by_cases h4 : su ≠ "" ∧ su ≠ lu ∧ su ≠ aenv.postLoginUrl
        · cases hs : aenv.startNavOk with
          | true =>
            rw [navigate_start_ok aenv lu su m hb hp h4 hs] at h
            simp at h
          | false =>
            rw [navigate_start_fail aenv lu su m hb hp h4 hs] at h
            simp at h
        · rw [navigate_plain aenv lu su m hb hp h4] at h
          simp at h
  · intro h
    cases hb : aenv.authThrows with
    | true => rw [navigate_throws aenv lu su m hb]
    | false =>
      have hp : aenv.postLoginUrl = lu := by
        rcases h with h1 | h1
        · rw [hb] at h1 ; exact absurd h1 (by decide)
        · exact h1
      cases hle : aenv.loginErrorText with
      | some t => rw [navigate_login_error aenv lu su m t hb hp hle]
      | none => rw [navigate_no_redirect aenv lu su m hb hp hle]

lemma no_login_seeds_accounted (nl : String → String) (pg : String → PageResult)
    (su : String) (add : List String) (mp : ℕ) (m0 : MetricsTracker) :
    ∀ seed ∈ add,
      (∃ e ∈ (crawl_all_pages_no_login nl pg su add mp m0).events, e.url = seed) ∨
        mp ≤ (crawl_all_pages_no_login nl pg su add mp m0).content.length := by
  intro seed hs
  simp only [crawl_all_pages_no_login]
  exact crawlTop_seeds_accounted ⟨nl, pg, nl su, mp, 2⟩ 3 add su ⟨[], [], m0, []⟩ seed hs

lemma login_seeds_accounted (nl : String → String) (pg : String → PageResult)
    (aenv : AuthEnv) (url lu : String) (add : List String) (mp : ℕ) (m0 : MetricsTracker)
    (hsucc : (navigate_authenticated_site aenv lu url m0).success = true) (hadd : add ≠ []) :
    ∀ seed ∈ add,
      (∃ e ∈ (login_and_crawl_all_pages nl pg aenv url lu add mp m0).events, e.url = seed) ∨
        mp ≤ (login_and_crawl_all_pages nl pg aenv url lu add mp m0).content.length := by
  intro seed hs
  simp only [login_and_crawl_all_pages]
  split
  · rename_i h
    rw [hsucc] at h
    exact absurd h (by decide)
  · exact crawlTop_seeds_accounted ⟨nl, pg, nl lu, mp, 2⟩ 3 add url _ seed hs


lemma login_auth_failure (nl : String → String) (pg : String → PageResult) (aenv : AuthEnv)
    (url lu : String) (add : List String) (mp : ℕ) (m0 : MetricsTracker)
    (h : aenv.authThrows = true ∨ aenv.postLoginUrl = lu) :
    (login_and_crawl_all_pages nl pg aenv url lu add mp m0).content = [] ∧
      ∃ r, ((∃ t, r = "login_failed" ++ t) ∨ (∃ t, r = "auth_error" ++ t)) ∧
        lu ∈ bucketGet
          (login_and_crawl_all_pages nl pg aenv url lu add mp m0).metrics.crawl.skip_reasons
          r := by
  have hf : (navigate_authenticated_site aenv lu url m0).success = false :=
    (navigate_success_iff aenv lu url m0).mpr h
  simp only [login_and_crawl_all_pages]
  rw [if_pos hf]
  refine ⟨rfl, ?_⟩
  cases hb : aenv.authThrows with
  | true =>
    rw [navigate_throws aenv lu url m0 hb]
    exact ⟨"auth_error: " ++ aenv.authErr.take 50,
      Or.inr ⟨": " ++ aenv.authErr.take 50, by rw [← String.append_assoc] ; exact rfl⟩,
      mem_bucketGet_self _ _ _⟩
  | false =>
    have hp : aenv.postLoginUrl = lu := by
      rcases h with h1 | h1
      · rw [hb] at h1
        exact absurd h1 (by decide)
      · exact h1
    cases hle : aenv.loginErrorText with
    | some t =>
      rw [navigate_login_error aenv lu url m0 t hb hp hle]
      exact ⟨"login_failed: " ++ t.take 50,
        Or.inl ⟨": " ++ t.take 50, by rw [← String.append_assoc] ; exact rfl⟩,
        mem_bucketGet_self _ _ _⟩
    | none =>
      rw [navigate_no_redirect aenv lu url m0 hb hp hle]
      exact ⟨"login_failed_no_redirect", Or.inl ⟨"_no_redirect", by decide⟩,
        mem_bucketGet_self _ _ _⟩

/-! ## Concrete test fixtures for witnesses and counterexamples -/

/-- A constant-authority URL parser: every URL has netloc "d". -/
def constNetloc : String → String := fun _ => "d"

/-- A page that loads fine, extracts content "c", and links to `links`. -/
def pageOk (links : List String) : PageResult :=
  ⟨true, "", true, "c", "", true, links⟩

/-- Entry page "E" links back to itself. -/
def pgSelfLoop : String → PageResult :=
  fun u => if u = "E" then pageOk ["E"] else pageOk []

/-- Entry page "E" links to "A" and "B"; the children have no links. -/
def pgTwoKids : String → PageResult :=
  fun u => if u = "E" then pageOk ["A", "B"] else pageOk []

/-- Every navigation fails with message "boom". -/
def pgNavFail : String → PageResult :=
  fun _ => ⟨false, "boom", true, "c", "", true, []⟩

/-- The environment built internally for `pgTwoKids` with budget 2. -/
def envTwoKids : CrawlEnv := ⟨constNetloc, pgTwoKids, "d", 2, 2⟩

/-- Budget-1 environment for the duplicate-versus-budget counterexample. -/
def envFullDup : CrawlEnv := ⟨constNetloc, pgSelfLoop, "d", 1, 2⟩

/-- Budget-5 environment over the same pages. -/
def envBig : CrawlEnv := ⟨constNetloc, pgSelfLoop, "d", 5, 2⟩

/-- Environment whose base domain differs from every URL's netloc. -/
def envOther : CrawlEnv := ⟨constNetloc, pgSelfLoop, "x", 5, 2⟩

/-- A session state whose budget of 1 page is exhausted and that already
visited "A". -/
def stFullDup : CrawlState := ⟨["A"], [("A", "c")], MetricsTracker.init "m", []⟩

/-- The empty session state over a fresh tracker. -/
def stEmpty : CrawlState := ⟨[], [], MetricsTracker.init "m", []⟩

/-- An authentication environment whose login steps throw "boom". -/
def aenvThrow : AuthEnv := ⟨true, "boom", "L", none, true, ""⟩


/-! ## Claims C1–C6, C8 -/

/-- C1: the URL-to-content map never exceeds `max_pages`: the preservation
form holds at every intermediate state of `crawl` (so also mid-crawl), the
per-URL step records `max_limit_reached` without crawling when the budget is
already exhausted, and both crawl entry points return a content map of size
at most `max_pages`. -/
theorem c1_budget_invariant :
    (∀ env : CrawlEnv, ∀ fuel url depth st, st.content.length ≤ env.maxPages →
      (crawl env fuel url depth st).content.length ≤ env.maxPages) ∧
    (∀ env : CrawlEnv, ∀ fuel url depth st, env.maxPages ≤ st.content.length →
      crawl env (fuel + 1) url depth st = st.recordSkipped url "max_limit_reached") ∧
    (∀ nl pg su add mp m0,
      (crawl_all_pages_no_login nl pg su add mp m0).content.length ≤ mp) ∧
    (∀ nl pg aenv url lu add mp m0,
      (login_and_crawl_all_pages nl pg aenv url lu add mp m0).content.length ≤ mp) := by
  refine ⟨crawl_content_le, crawl_eq_limit, ?_, ?_⟩
  · intro nl pg su add mp m0
    exact no_login_preserve nl pg su add mp m0 (fun s => s.content.length ≤ mp)
      (fun fuel u d st h => crawl_content_le _ fuel u d st h) (Nat.zero_le mp)
  · intro nl pg aenv url lu add mp m0
    exact login_preserve nl pg aenv url lu add mp m0 (fun s => s.content.length ≤ mp)
      (fun fuel u d st h => crawl_content_le _ fuel u d st h) (Nat.zero_le mp)

/-- Witness for C1: the budget-preservation and budget-exhausted conjuncts
applied at concrete states, with each hypothesis discharged there. -/
theorem c1_budget_invariant_witness :
    (stEmpty.content.length ≤ envBig.maxPages ∧
      (crawl envBig 4 "E" 0 stEmpty).content.length ≤ envBig.maxPages) ∧
    (envFullDup.maxPages ≤ stFullDup.content.length ∧
      crawl envFullDup (0 + 1) "A" 0 stFullDup =
        stFullDup.recordSkipped "A" "max_limit_reached") :=
  ⟨⟨by decide, c1_budget_invariant.1 envBig 4 "E" 0 stEmpty (by decide)⟩,
   ⟨by decide, c1_budget_invariant.2.1 envFullDup 0 "A" 0 stFullDup (by decide)⟩⟩

/-- C2: the per-URL policy checks run in the fixed order budget, duplicate,
depth, domain, each short-circuiting with its skip reason, and navigation
(`crawlNav`) is attempted only when none of the four fires. -/
theorem c2_check_precedence :
    ∀ env : CrawlEnv, ∀ fuel url depth st,
      (env.maxPages ≤ st.content.length →
        crawl env (fuel + 1) url depth st = st.recordSkipped url "max_limit_reached") ∧
      (st.content.length < env.maxPages → url ∈ st.visited →
        crawl env (fuel + 1) url depth st = st.recordSkipped url "duplicate") ∧
      (st.content.length < env.maxPages → url ∉ st.visited → env.maxDepth < depth →
        crawl env (fuel + 1) url depth st = st.recordSkipped url "max_depth_exceeded") ∧
      (st.content.length < env.maxPages → url ∉ st.visited → depth ≤ env.maxDepth →
        env.netloc url ≠ env.baseDomain →
        crawl env (fuel + 1) url depth st = st.recordSkipped url "domain_mismatch") ∧
      (st.content.length < env.maxPages → url ∉ st.visited → depth ≤ env.maxDepth →
        env.netloc url = env.baseDomain →
        crawl env (fuel + 1) url depth st =
          crawlNav env (fun l s => crawl env fuel l (depth + 1) s) url st) :=
  fun env fuel url depth st =>
    ⟨crawl_eq_limit env fuel url depth st,
     crawl_eq_dup env fuel url depth st,
     crawl_eq_depth env fuel url depth st,
     crawl_eq_domain env fuel url depth st,
     crawl_eq_nav env fuel url depth st⟩

/-- Witness for C2: each of the five precedence conjuncts applied at a
concrete state satisfying exactly its hypotheses. -/
theorem c2_check_precedence_witness :
    (envFullDup.maxPages ≤ stFullDup.content.length ∧
      crawl envFullDup (0 + 1) "A" 0 stFullDup =
        stFullDup.recordSkipped "A" "max_limit_reached") ∧
    (stFullDup.content.length < envBig.maxPages ∧ "A" ∈ stFullDup.visited ∧
      crawl envBig (0 + 1) "A" 0 stFullDup = stFullDup.recordSkipped "A" "duplicate") ∧
    (stEmpty.content.length < envBig.maxPages ∧ "A" ∉ stEmpty.visited ∧
      envBig.maxDepth < 3 ∧
      crawl envBig (0 + 1) "A" 3 stEmpty = stEmpty.recordSkipped "A" "max_depth_exceeded") ∧
    (stEmpty.content.length < envOther.maxPages ∧ "A" ∉ stEmpty.visited ∧
      (0 : ℕ) ≤ envOther.maxDepth ∧ envOther.netloc "A" ≠ envOther.baseDomain ∧
      crawl envOther (0 + 1) "A" 0 stEmpty = stEmpty.recordSkipped "A" "domain_mismatch") ∧
    (stEmpty.content.length < envBig.maxPages ∧ "A" ∉ stEmpty.visited ∧
      (0 : ℕ) ≤ envBig.maxDepth ∧ envBig.netloc "A" = envBig.baseDomain ∧
      crawl envBig (0 + 1) "A" 0 stEmpty =
        crawlNav envBig (fun l s => crawl envBig 0 l (0 + 1) s) "A" stEmpty) :=
  ⟨⟨by decide, (c2_check_precedence envFullDup 0 "A" 0 stFullDup).1 (by decide)⟩,
   ⟨by decide, by decide,
     (c2_check_precedence envBig 0 "A" 0 stFullDup).2.1 (by decide) (by decide)⟩,
   ⟨by decide, by decide, by decide,
     (c2_check_precedence envBig 0 "A" 3 stEmpty).2.2.1 (by decide) (by decide) (by decide)⟩,
   ⟨by decide, by decide, by decide, by decide,
     (c2_check_precedence envOther 0 "A" 0 stEmpty).2.2.2.1 (by decide) (by decide)
       (by decide) (by decide)⟩,
   ⟨by decide, by decide, by decide, by decide,
     (c2_check_precedence envBig 0 "A" 0 stEmpty).2.2.2.2 (by decide) (by decide)
       (by decide) (by decide)⟩⟩

/-- C6 (amended): `visitedURLs` never holds a URL twice (preserved at each
step and true of both entry points), and a second attempt at a visited URL is
recorded `duplicate` provided the page budget is not exhausted at that
attempt; with the budget exhausted, the step records `max_limit_reached`
instead. -/
theorem c6_no_revisit :
    (∀ env : CrawlEnv, ∀ fuel url depth st, st.visited.Nodup →
      (crawl env fuel url depth st).visited.Nodup) ∧
    (∀ nl pg su add mp m0, (crawl_all_pages_no_login nl pg su add mp m0).visited.Nodup) ∧
    (∀ nl pg aenv url lu add mp m0,
      (login_and_crawl_all_pages nl pg aenv url lu add mp m0).visited.Nodup) ∧
    (∀ env : CrawlEnv, ∀ fuel url depth st, st.content.length < env.maxPages →
      url ∈ st.visited →
      crawl env (fuel + 1) url depth st = st.recordSkipped url "duplicate") := by
  refine ⟨crawl_visited_nodup, ?_, ?_, crawl_eq_dup⟩
  · intro nl pg su add mp m0
    exact no_login_preserve nl pg su add mp m0 (fun s => s.visited.Nodup)
      (fun fuel u d st h => crawl_visited_nodup _ fuel u d st h) List.nodup_nil
  · intro nl pg aenv url lu add mp m0
    exact login_preserve nl pg aenv url lu add mp m0 (fun s => s.visited.Nodup)
      (fun fuel u d st h => crawl_visited_nodup _ fuel u d st h) List.nodup_nil

/-- Witness for C6: the nodup-preservation and conditional-duplicate
conjuncts applied at concrete states. -/
theorem c6_no_revisit_witness :
    (stFullDup.visited.Nodup ∧ (crawl envBig 4 "A" 0 stFullDup).visited.Nodup) ∧
    (stFullDup.content.length < envBig.maxPages ∧ "A" ∈ stFullDup.visited ∧
      crawl envBig (0 + 1) "A" 0 stFullDup = stFullDup.recordSkipped "A" "duplicate") :=
  ⟨⟨by decide, c6_no_revisit.1 envBig 4 "A" 0 stFullDup (by decide)⟩,
   ⟨by decide, by decide, c6_no_revisit.2.2.2 envBig 0 "A" 0 stFullDup (by decide) (by decide)⟩⟩

/-- Counterexample for C6 as stated: in a session state whose page budget is
exhausted, a second attempt at the already-visited URL "A" is recorded
`max_limit_reached`, not `duplicate` (the claim asserted `duplicate`
regardless of the budget). -/
theorem c6_budget_over_duplicate_counterexample :
    "A" ∈ stFullDup.visited ∧
    envFullDup.maxPages ≤ stFullDup.content.length ∧
    crawl envFullDup 1 "A" 0 stFullDup = stFullDup.recordSkipped "A" "max_limit_reached" ∧
    bucketGet (crawl envFullDup 1 "A" 0 stFullDup).metrics.crawl.skip_reasons "duplicate" =
      [] := by
  refine ⟨by decide, by decide, by decide, by decide⟩


/-- C3 (amended): at the end of a session over a fresh tracker,
`pages_crawled` plus the total size of all skip buckets equals the number of
recorded per-URL decisions (the ghost event trace, one entry per decision) —
not the number of distinct URLs, since a URL can receive several decisions. -/
theorem c3_outcome_accounting :
    (∀ nl pg su add mp model,
      (crawl_all_pages_no_login nl pg su add mp
        (MetricsTracker.init model)).metrics.crawl.pages_crawled +
        sumBuckets (crawl_all_pages_no_login nl pg su add mp
          (MetricsTracker.init model)).metrics.crawl.skip_reasons =
        (crawl_all_pages_no_login nl pg su add mp (MetricsTracker.init model)).events.length) ∧
    (∀ nl pg aenv url lu add mp model,
      (login_and_crawl_all_pages nl pg aenv url lu add mp
        (MetricsTracker.init model)).metrics.crawl.pages_crawled +
        sumBuckets (login_and_crawl_all_pages nl pg aenv url lu add mp
          (MetricsTracker.init model)).metrics.crawl.skip_reasons =
        (login_and_crawl_all_pages nl pg aenv url lu add mp
          (MetricsTracker.init model)).events.length) := by
  constructor
  · intro nl pg su add mp model
    exact no_login_preserve nl pg su add mp (MetricsTracker.init model) countOk
      (fun fuel u d st h => crawl_countOk _ fuel u d st h)
      (by simp [countOk, MetricsTracker.init, sumBuckets])
  · intro nl pg aenv url lu add mp model
    exact login_preserve nl pg aenv url lu add mp (MetricsTracker.init model) countOk
      (fun fuel u d st h => crawl_countOk _ fuel u d st h)
      (navigate_countOk aenv lu url model)

/-- Counterexample for C3 as stated: a session in which the entry page links
to itself yields two decisions for the single distinct URL "E" (crawled, then
duplicate), so crawled-plus-skipped is 2 while only 1 distinct URL reached a
decision. -/
theorem c3_distinct_counterexample :
    (crawl_all_pages_no_login constNetloc pgSelfLoop "E" [] 50
      (MetricsTracker.init "m")).metrics.crawl.pages_crawled +
      sumBuckets (crawl_all_pages_no_login constNetloc pgSelfLoop "E" [] 50
        (MetricsTracker.init "m")).metrics.crawl.skip_reasons ≠
      ((crawl_all_pages_no_login constNetloc pgSelfLoop "E" [] 50
        (MetricsTracker.init "m")).events.map Event.url).dedup.length ∧
    (crawl_all_pages_no_login constNetloc pgSelfLoop "E" [] 50
      (MetricsTracker.init "m")).metrics.crawl.pages_crawled +
      sumBuckets (crawl_all_pages_no_login constNetloc pgSelfLoop "E" [] 50
        (MetricsTracker.init "m")).metrics.crawl.skip_reasons = 2 ∧
    ((crawl_all_pages_no_login constNetloc pgSelfLoop "E" [] 50
      (MetricsTracker.init "m")).events.map Event.url).dedup.length = 1 := by
  refine ⟨by decide, by decide, by decide⟩

/-- C4 (amended): every key of the final skip-reason dict starts with a
member of the closed enumeration; the four policy reasons appear verbatim,
while the error reasons carry a ": detail" annotation (or the
`login_failed_no_redirect` variant), so the keys are not literally members of
the enumeration. -/
theorem c4_skip_reason_shapes :
    (∀ nl pg su add mp model,
      ∀ r ∈ (crawl_all_pages_no_login nl pg su add mp
        (MetricsTracker.init model)).metrics.crawl.skip_reasons.map Prod.fst, ReasonOk r) ∧
    (∀ nl pg aenv url lu add mp model,
      ∀ r ∈ (login_and_crawl_all_pages nl pg aenv url lu add mp
        (MetricsTracker.init model)).metrics.crawl.skip_reasons.map Prod.fst, ReasonOk r) := by
  constructor
  · intro nl pg su add mp model
    exact no_login_preserve nl pg su add mp (MetricsTracker.init model) keysOk
      (fun fuel u d st h => crawl_keysOk _ fuel u d st h)
      (by intro x hx ; simp [MetricsTracker.init] at hx)
  · intro nl pg aenv url lu add mp model
    exact login_preserve nl pg aenv url lu add mp (MetricsTracker.init model) keysOk
      (fun fuel u d st h => crawl_keysOk _ fuel u d st h)
      (navigate_keysOk aenv lu url model)

set_option maxRecDepth 16000

/-- Witness for C4: a session with a failing navigation records the key
"navigation_error: boom", and the theorem yields its enumeration prefix. -/
theorem c4_skip_reason_shapes_witness :
    "navigation_error: boom" ∈ (crawl_all_pages_no_login constNetloc pgNavFail "E" [] 50
      (MetricsTracker.init "m")).metrics.crawl.skip_reasons.map Prod.fst ∧
    ReasonOk "navigation_error: boom" :=
  ⟨by decide,
   c4_skip_reason_shapes.1 constNetloc pgNavFail "E" [] 50 "m" "navigation_error: boom"
     (by decide)⟩

/-- Counterexample for C4 as stated: the recorded reason for a navigation
failure is "navigation_error: boom", which is not a member of the closed
enumeration. -/
theorem c4_closed_enum_counterexample :
    (crawl_all_pages_no_login constNetloc pgNavFail "E" [] 50
      (MetricsTracker.init "m")).metrics.crawl.skip_reasons.map Prod.fst =
      ["navigation_error: boom"] ∧
    "navigation_error: boom" ∉ skipReasonEnum := by
  refine ⟨by decide, by decide⟩


/-- C5 (amended): every seed URL and every eligible discovered link either
receives a recorded decision (an event, which for skips is accounted under
the bucket of its recorded reason) or is dropped without any record, and the
latter happens only when the page budget is exhausted by the time its turn
comes (the final content map is full). -/
theorem c5_discovered_accounting :
    (∀ nl pg su add mp m0, ∀ seed ∈ add,
      (∃ e ∈ (crawl_all_pages_no_login nl pg su add mp m0).events, e.url = seed) ∨
        mp ≤ (crawl_all_pages_no_login nl pg su add mp m0).content.length) ∧
    (∀ nl pg aenv url lu add mp m0,
      (navigate_authenticated_site aenv lu url m0).success = true → add ≠ [] →
      ∀ seed ∈ add,
        (∃ e ∈ (login_and_crawl_all_pages nl pg aenv url lu add mp m0).events, e.url = seed) ∨
          mp ≤ (login_and_crawl_all_pages nl pg aenv url lu add mp m0).content.length) ∧
    (∀ env : CrawlEnv, ∀ fuel depth links st, ∀ link ∈ links,
      linkEligible env link = true →
      (∃ e ∈ (crawlLinks env (fun l s => crawl env (fuel + 1) l depth s) links st).events,
        e.url = link) ∨
        env.maxPages ≤
          (crawlLinks env (fun l s => crawl env (fuel + 1) l depth s) links st).content.length) ∧
    (∀ nl pg su add mp m0, ∀ e ∈ (crawl_all_pages_no_login nl pg su add mp m0).events,
      ∀ r, e.outcome = Outcome.skipped r →
        e.url ∈ bucketGet
          (crawl_all_pages_no_login nl pg su add mp m0).metrics.crawl.skip_reasons r) ∧
    (∀ nl pg aenv url lu add mp m0,
      ∀ e ∈ (login_and_crawl_all_pages nl pg aenv url lu add mp m0).events,
      ∀ r, e.outcome = Outcome.skipped r →
        e.url ∈ bucketGet
          (login_and_crawl_all_pages nl pg aenv url lu add mp m0).metrics.crawl.skip_reasons
          r) := by
  refine ⟨no_login_seeds_accounted, login_seeds_accounted, ?_, ?_, ?_⟩
  · intro env fuel depth links st
    exact crawlLinks_accounted env _
      (fun l s => crawl_events_mono env (fuel + 1) l depth s)
      (fun l s => crawl_first_event env fuel l depth s) links st
  · intro nl pg su add mp m0
    exact no_login_preserve nl pg su add mp m0 eventsBucketed
      (fun fuel u d st h => crawl_eventsBucketed _ fuel u d st h)
      (by intro e he ; simp at he)
  · intro nl pg aenv url lu add mp m0
    exact login_preserve nl pg aenv url lu add mp m0 eventsBucketed
      (fun fuel u d st h => crawl_eventsBucketed _ fuel u d st h)
      (navigate_eventsBucketed aenv lu url m0)

/-- Witness for C5: the seed conjunct applied to a concrete two-page-budget
session that was given seed "A". -/
theorem c5_discovered_accounting_witness :
    "A" ∈ ["A"] ∧
    ((∃ e ∈ (crawl_all_pages_no_login constNetloc pgTwoKids "E" ["A"] 2
        (MetricsTracker.init "m")).events, e.url = "A") ∨
      2 ≤ (crawl_all_pages_no_login constNetloc pgTwoKids "E" ["A"] 2
        (MetricsTracker.init "m")).content.length) :=
  ⟨by decide,
   c5_discovered_accounting.1 constNetloc pgTwoKids "E" ["A"] 2 (MetricsTracker.init "m")
     "A" (by decide)⟩

/-- Counterexample for C5 as stated: with a budget of 2, page "E" links to
the eligible same-domain URLs "A" and "B"; "E" and "A" are crawled, the
budget is then full, and "B" — discovered and eligible — is dropped with no
skip bucket recording it (the final skip-reason dict is empty). -/
theorem c5_silent_drop_counterexample :
    "B" ∈ (pgTwoKids "E").links ∧
    linkEligible envTwoKids "B" = true ∧
    (crawl_all_pages_no_login constNetloc pgTwoKids "E" [] 2
      (MetricsTracker.init "m")).metrics.crawl.skip_reasons = [] ∧
    (crawl_all_pages_no_login constNetloc pgTwoKids "E" [] 2
      (MetricsTracker.init "m")).metrics.crawl.crawled_urls = ["E", "A"] := by
  refine ⟨by decide, by decide, by decide, by decide⟩

/-- C8: `navigate_authenticated_site` fails exactly when the login steps
threw or the post-login URL still equals the login URL; on that failure
`login_and_crawl_all_pages` aborts with an empty content map and a
`login_failed`/`auth_error` skip recorded against the login URL, the suffix
carrying the cause. -/
theorem c8_auth_failure_aborts :
    (∀ aenv : AuthEnv, ∀ lu su : String, ∀ m : MetricsTracker,
      (navigate_authenticated_site aenv lu su m).success = false ↔
        (aenv.authThrows = true ∨ aenv.postLoginUrl = lu)) ∧
    (∀ nl pg aenv url lu add mp m0, (aenv.authThrows = true ∨ aenv.postLoginUrl = lu) →
      (login_and_crawl_all_pages nl pg aenv url lu add mp m0).content = [] ∧
      ∃ r, ((∃ t, r = "login_failed" ++ t) ∨ (∃ t, r = "auth_error" ++ t)) ∧
        lu ∈ bucketGet
          (login_and_crawl_all_pages nl pg aenv url lu add mp m0).metrics.crawl.skip_reasons
          r) :=
  ⟨navigate_success_iff,
   fun nl pg aenv url lu add mp m0 h => login_auth_failure nl pg aenv url lu add mp m0 h⟩

/-- Witness for C8: the abort conjunct applied to a concrete authentication
environment whose login steps throw. -/
theorem c8_auth_failure_aborts_witness :
    (aenvThrow.authThrows = true ∨ aenvThrow.postLoginUrl = "L") ∧
    ((login_and_crawl_all_pages constNetloc pgSelfLoop aenvThrow "E" "L" [] 50
        (MetricsTracker.init "m")).content = [] ∧
      ∃ r, ((∃ t, r = "login_failed" ++ t) ∨ (∃ t, r = "auth_error" ++ t)) ∧
        "L" ∈ bucketGet (login_and_crawl_all_pages constNetloc pgSelfLoop aenvThrow "E" "L"
          [] 50 (MetricsTracker.init "m")).metrics.crawl.skip_reasons r) :=
  ⟨Or.inl rfl,
   c8_auth_failure_aborts.2 constNetloc pgSelfLoop aenvThrow "E" "L" [] 50
     (MetricsTracker.init "m") (Or.inl rfl)⟩

end GenAI
